import Mathlib

/-!
Verification of the navigo-rides CRUD backend against its specification.

The TypeScript controllers (users, drivers, vehicles, schools) are shallowly
embedded as pure Lean functions over explicit database states (lists of rows).
Machine strings are Lean `String` (the inputs of interest are ASCII); JS
numbers appearing in pagination are modelled by `JNum` (an integer or NaN),
since `parseInt`/`Math.max`/`Math.min` propagate NaN; monetary/rating/geo
values are modelled by `Rat` (the code only compares them, never rounds).

Clock- and platform-dependent library calls (`new Date()` for the current
time, age and future-date checks, the WHATWG `new URL` parser and the JSON
parser used by `validateVehicleImageUrls`) are abstracted into an `Env`
record of oracles passed to each handler; every claim below is insensitive
to how these oracles decide.
-/

namespace Navigo

/-- Whitespace as matched by the `\s`-based trims and collapses in the
controllers (ASCII fragment). -/
def isJsWs (c : Char) : Bool := c.isWhitespace

/-- ASCII uppercase of one character, modelling `String.prototype.toUpperCase`
on the ASCII inputs the validators accept. -/
def upChar (c : Char) : Char :=
  if 'a' ≤ c ∧ c ≤ 'z' then Char.ofNat (c.toNat - 32) else c

/-- ASCII lowercase of one character, modelling `String.prototype.toLowerCase`. -/
def downChar (c : Char) : Char :=
  if 'A' ≤ c ∧ c ≤ 'Z' then Char.ofNat (c.toNat + 32) else c

def toUpperJS (s : String) : String := String.mk (s.data.map upChar)

def toLowerJS (s : String) : String := String.mk (s.data.map downChar)

/-- `trim()`: strip leading and trailing whitespace. -/
def trimChars (cs : List Char) : List Char :=
  ((cs.dropWhile isJsWs).reverse.dropWhile isJsWs).reverse

def trimJS (s : String) : String := String.mk (trimChars s.data)

/-- Split a character list at every occurrence of `sep` (the separator never
occurs inside the chunks). -/
def splitChar (sep : Char) : List Char → List (List Char)
  | [] => [[]]
  | c :: rest =>
    let r := splitChar sep rest
    if c = sep then [] :: r
    else
      match r with
      | h :: t => (c :: h) :: t
      | [] => [[c]]

/-- Collapse each maximal whitespace run to a single space
(`replace(/\s+/g, ' ')`); the flag records whether we are inside a run. -/
def collapseWs : List Char → Bool → List Char
  | [], _ => []
  | c :: cs, inRun =>
    if isJsWs c then
      if inRun then collapseWs cs true else ' ' :: collapseWs cs true
    else c :: collapseWs cs false

/-- `sanitizeInput` from the controllers: `input.trim().replace(/\s+/g, ' ')`. -/
def sanitizeInput (s : String) : String := String.mk (collapseWs (trimChars s.data) false)

/-- JS truthiness of an optional string: `undefined`/`null` and `""` are falsy. -/
def strTruthy (o : Option String) : Bool :=
  match o with
  | none => false
  | some s => s ≠ ""

/-- `o || null` on an optional string field (empty string collapses to null). -/
def orNull (o : Option String) : Option String :=
  match o with
  | none => none
  | some s => if s = "" then none else some s

def isDigitChar (c : Char) : Bool := '0' ≤ c ∧ c ≤ '9'

def isUpperAlpha (c : Char) : Bool := 'A' ≤ c ∧ c ≤ 'Z'

def isLowerAlpha (c : Char) : Bool := 'a' ≤ c ∧ c ≤ 'z'

def isAlpha (c : Char) : Bool := isUpperAlpha c || isLowerAlpha c

/-! ### Validation helpers (src/helpers/validation.ts and per-controller copies) -/

/-- `validateLicenseNumber`: length between 10 and 20. -/
def validateLicenseNumber (license : String) : Bool :=
  10 ≤ license.length ∧ license.length ≤ 20

/-- `validateAadhar`: `/^\d{12}$/`. -/
def validateAadhar (aadhar : String) : Bool :=
  aadhar.length = 12 ∧ aadhar.data.all isDigitChar

/-- `validatePAN`: `/^[A-Z]{5}[0-9]{4}[A-Z]{1}$/`. -/
def validatePAN (pan : String) : Bool :=
  pan.length = 10 ∧ (pan.data.take 5).all isUpperAlpha ∧
    ((pan.data.drop 5).take 4).all isDigitChar ∧ (pan.data.drop 9).all isUpperAlpha

/-- `validatePhone`: `/^[6-9]\d{9}$/`. -/
def validatePhone (phone : String) : Bool :=
  phone.length = 10 ∧ phone.data.all isDigitChar ∧
    phone.data.head?.any (fun c => '6' ≤ c ∧ c ≤ '9')

/-- `validateIFSC`: `/^[A-Z]{4}0[A-Z0-9]{6}$/`. -/
def validateIFSC (ifsc : String) : Bool :=
  ifsc.length = 11 ∧ (ifsc.data.take 4).all isUpperAlpha ∧
    (ifsc.data.drop 4).take 1 = ['0'] ∧
    (ifsc.data.drop 5).all (fun c => isUpperAlpha c || isDigitChar c)

/-- Characters allowed in the local part of `validateUPI`. -/
def isUpiLocalChar (c : Char) : Bool :=
  isAlpha c || isDigitChar c || c = '.' || c = '-' || c = '_'

/-- `validateUPI`: `/^[a-zA-Z0-9.\-_]{2,256}@[a-zA-Z][a-zA-Z]{2,64}$/`. -/
def validateUPI (upi : String) : Bool :=
  match splitChar '@' upi.data with
  | [l, h] =>
    (2 ≤ l.length ∧ l.length ≤ 256 ∧ l.all isUpiLocalChar) ∧
    (3 ≤ h.length ∧ h.length ≤ 65 ∧ h.all isAlpha)
  | _ => false

/-- The domain of `/^[^\s@]+@[^\s@]+\.[^\s@]+$/` has a dot that is neither
its first nor its last character. -/
def hasInternalDot (cs : List Char) : Bool := ((cs.drop 1).dropLast).contains '.'

def emailChunkOk (cs : List Char) : Bool := cs.all (fun c => ¬ isJsWs c ∧ c ≠ '@')

/-- `validateEmail` (helpers copy): `/^[^\s@]+@[^\s@]+\.[^\s@]+$/`. -/
def validateEmail (email : String) : Bool :=
  match splitChar '@' email.data with
  | [l, d] =>
    l ≠ [] ∧ emailChunkOk l ∧ d ≠ [] ∧ emailChunkOk d ∧ hasInternalDot d
  | _ => false

/-- driver.ts `validateName`: `/^[A-Za-z\s]{2,100}$/` on the trimmed string. -/
def validateNameDriver (name : String) : Bool :=
  let t := trimChars name.data
  2 ≤ t.length ∧ t.length ≤ 100 ∧ t.all (fun c => isAlpha c || isJsWs c)

/-- user.ts `validateName`: `/^[a-zA-Z\s]{2,50}$/` on the trimmed string. -/
def validateNameUser (name : String) : Bool :=
  let t := trimChars name.data
  2 ≤ t.length ∧ t.length ≤ 50 ∧ t.all (fun c => isAlpha c || isJsWs c)

def daysInMonth (y m : Nat) : Nat :=
  if m = 2 then (if y % 4 = 0 ∧ (y % 100 ≠ 0 ∨ y % 400 = 0) then 29 else 28)
  else if m = 4 ∨ m = 6 ∨ m = 9 ∨ m = 11 then 30
  else 31

def natOfDigits (cs : List Char) : Nat :=
  cs.foldl (fun a c => a * 10 + (c.toNat - 48)) 0

/-- `validateDateFormat`: `/^\d{4}-\d{2}-\d{2}$/` and `new Date(date)` must be
a real calendar date (the V8 ISO parser rejects e.g. month 13 or Feb 30). -/
def validateDateFormat (date : String) : Bool :=
  match splitChar '-' date.data with
  | [y, m, d] =>
    y.length = 4 ∧ m.length = 2 ∧ d.length = 2 ∧
    y.all isDigitChar ∧ m.all isDigitChar ∧ d.all isDigitChar ∧
    (let mv := natOfDigits m
     let dv := natOfDigits d
     1 ≤ mv ∧ mv ≤ 12 ∧ 1 ≤ dv ∧ dv ≤ daysInMonth (natOfDigits y) mv)
  | _ => false

/-- vehicle.ts `validateRegistrationNumber`:
`/^[A-Z]{2}\d{1,2}[A-Z]{1,2}\d{1,4}$/` on the uppercased, space-stripped
string; segment lengths are enumerated (b digits, c letters, d digits). -/
def regSegmentsOk (cs : List Char) (b c : Nat) : Bool :=
  let d : Int := (cs.length : Int) - 2 - b - c
  1 ≤ d ∧ d ≤ 4 ∧
  (cs.take 2).all isUpperAlpha ∧
  ((cs.drop 2).take b).all isDigitChar ∧
  (((cs.drop 2).drop b).take c).all isUpperAlpha ∧
  (((cs.drop 2).drop b).drop c).all isDigitChar

def validateRegistrationNumber (regNumber : String) : Bool :=
  let cs := (toUpperJS regNumber).data.filter (fun c => ¬ isJsWs c)
  regSegmentsOk cs 1 1 || regSegmentsOk cs 1 2 || regSegmentsOk cs 2 1 || regSegmentsOk cs 2 2

/-- vehicle.ts `validateYear` relative to the environment's current year. -/
def validateYear (currentYear year : Int) : Bool :=
  1990 ≤ year ∧ year ≤ currentYear

/-- vehicle.ts `validateCapacity`: type-specific inclusive ranges; an
unknown type imposes no bound (`limits ? … : true`). -/
def validateCapacity (capacity : Int) (vehicleType : String) : Bool :=
  if vehicleType = "bike" then 1 ≤ capacity ∧ capacity ≤ 2
  else if vehicleType = "auto" then 2 ≤ capacity ∧ capacity ≤ 6
  else if vehicleType = "car" then 4 ≤ capacity ∧ capacity ≤ 8
  else if vehicleType = "van" then 6 ≤ capacity ∧ capacity ≤ 15
  else if vehicleType = "bus" then 10 ≤ capacity ∧ capacity ≤ 60
  else true

/-- school.ts `validateSchoolCode`: `/^[A-Z0-9_-]{3,20}$/` on the trimmed string. -/
def isSchoolCodeChar (c : Char) : Bool :=
  isUpperAlpha c || isDigitChar c || c = '_' || c = '-'

def validateSchoolCode (code : String) : Bool :=
  let t := trimChars code.data
  3 ≤ t.length ∧ t.length ≤ 20 ∧ t.all isSchoolCodeChar

/-- school.ts `validateSchoolName`: `/^[a-zA-Z0-9\s.,'-]{2,100}$/` on the trim. -/
def isSchoolNameChar (c : Char) : Bool :=
  isAlpha c || isDigitChar c || isJsWs c || c = '.' || c = ',' || c = '\'' || c = '-'

def validateSchoolName (name : String) : Bool :=
  let t := trimChars name.data
  2 ≤ t.length ∧ t.length ≤ 100 ∧ t.all isSchoolNameChar

/-- school.ts `validatePincode`: `/^[1-9][0-9]{5}$/` on the trimmed string. -/
def validatePincode (pincode : String) : Bool :=
  let t := trimChars pincode.data
  t.length = 6 ∧ t.all isDigitChar ∧ t.head?.any (fun c => c ≠ '0')

/-- school.ts `validateCoordinates`. -/
def validateCoordinates (lat lng : Rat) : Bool :=
  -90 ≤ lat ∧ lat ≤ 90 ∧ -180 ≤ lng ∧ lng ≤ 180

/-- school.ts `validateTime`: `/^([01]?[0-9]|2[0-3]):[0-5][0-9]$/` on the trim. -/
def validateTime (time : String) : Bool :=
  match splitChar ':' (trimChars time.data) with
  | [h, m] =>
    (m.length = 2 ∧ m.all isDigitChar ∧ m.head?.any (fun c => c ≤ '5')) ∧
    ((h.length = 1 ∧ h.all isDigitChar) ∨
     (h.length = 2 ∧ h.all isDigitChar ∧
       h.head?.any (fun c0 => c0 = '0' ∨ c0 = '1' ∨
         (c0 = '2' ∧ (h.drop 1).head?.any (fun c1 => c1 ≤ '3')))))
  | _ => false

/-- school.ts `validateWorkingDays`: non-empty and every entry lowercases to
one of the seven day names. -/
def validDayNames : List String :=
  ["monday", "tuesday", "wednesday", "thursday", "friday", "saturday", "sunday"]

def validateWorkingDays (days : List String) : Bool :=
  days.length > 0 ∧ days.all (fun d => validDayNames.contains (toLowerJS d))

/-! ### JS numbers for pagination: `parseInt`, `Math.max`, `Math.min`, NaN -/

/-- A JS number as produced by `parseInt` and the pagination clamps: either
an integer or NaN. -/
inductive JNum where
  | nan : JNum
  | num : Int → JNum
deriving Repr, DecidableEq

def hexVal (c : Char) : Option Nat :=
  if '0' ≤ c ∧ c ≤ '9' then some (c.toNat - 48)
  else if 'a' ≤ c ∧ c ≤ 'f' then some (c.toNat - 87)
  else if 'A' ≤ c ∧ c ≤ 'F' then some (c.toNat - 55)
  else none

/-- Longest prefix of digits valid in the given base, as digit values. -/
def takeDigits (base : Nat) : List Char → List Nat
  | [] => []
  | c :: cs =>
    match hexVal c with
    | some v => if v < base then v :: takeDigits base cs else []
    | none => []

def valOfDigits (base : Nat) (ds : List Nat) : Nat :=
  ds.foldl (fun a d => a * base + d) 0

/-- `parseInt(s)` with no radix argument: skip leading whitespace, optional
sign, `0x`/`0X` selects base 16, then the longest valid digit prefix; NaN if
that prefix is empty. -/
def parseIntJS (s : String) : JNum :=
  let cs := s.data.dropWhile isJsWs
  let (neg, cs1) :=
    match cs with
    | '-' :: rest => (true, rest)
    | '+' :: rest => (false, rest)
    | _ => (false, cs)
  let (base, cs2) :=
    match cs1 with
    | '0' :: 'x' :: rest => (16, rest)
    | '0' :: 'X' :: rest => (16, rest)
    | _ => (10, cs1)
  match takeDigits base cs2 with
  | [] => JNum.nan
  | ds =>
    let n : Int := Int.ofNat (valOfDigits base ds)
    JNum.num (if neg then -n else n)

/-- `query.page || '1'`: the default is used when the parameter is absent or
the empty string (falsy). -/
def jsOr (o : Option String) (d : String) : String :=
  match o with
  | none => d
  | some s => if s = "" then d else s

/-- `Math.max(1, parseInt(query.page || '1'))`; `Math.max` returns NaN when
either argument is NaN. -/
def pageOf (pageS : Option String) : JNum :=
  match parseIntJS (jsOr pageS "1") with
  | JNum.nan => JNum.nan
  | JNum.num z => JNum.num (max 1 z)

/-- `Math.min(100, Math.max(1, parseInt(query.limit || '10')))`. -/
def limitOf (limitS : Option String) : JNum :=
  match parseIntJS (jsOr limitS "10") with
  | JNum.nan => JNum.nan
  | JNum.num z => JNum.num (min 100 (max 1 z))

/-- `a < b` on JS numbers: false when either side is NaN. -/
def jLt : JNum → JNum → Bool
  | JNum.num a, JNum.num b => a < b
  | _, _ => false

/-- `a > b` on JS numbers: false when either side is NaN. -/
def jGt : JNum → JNum → Bool
  | JNum.num a, JNum.num b => b < a
  | _, _ => false

/-- `a >= b` on JS numbers: false when either side is NaN. -/
def jGe : JNum → JNum → Bool
  | JNum.num a, JNum.num b => b ≤ a
  | _, _ => false

/-- `a <= b` on JS numbers: false when either side is NaN. -/
def jLe : JNum → JNum → Bool
  | JNum.num a, JNum.num b => a ≤ b
  | _, _ => false

/-- `Math.ceil(total / limit)` where `limit` is the clamped limit: NaN
propagates; a positive integer limit gives the usual ceiling division
(the clamp guarantees `1 ≤ limit` whenever it is a number, so the
non-positive branch is unreachable). -/
def totalPagesOf (total : Nat) : JNum → JNum
  | JNum.nan => JNum.nan
  | JNum.num l =>
    if 0 < l then JNum.num (Int.ofNat ((total + l.toNat - 1) / l.toNat)) else JNum.nan

/-- The pagination block `{page, limit, total, totalPages, hasNext, hasPrev}`
returned by every list endpoint. -/
structure PaginationInfo where
  page : JNum
  limit : JNum
  total : Nat
  totalPages : JNum
  hasNext : Bool
  hasPrev : Bool
deriving Repr, DecidableEq

/-- The pagination computation shared verbatim by all four list handlers
(user.ts getUsers, driver.ts getAllDrivers, vehicle.ts getVehicles,
school getSchools): clamp page and limit, count, ceiling-divide, compare. -/
def paginationOf (pageS limitS : Option String) (total : Nat) : PaginationInfo :=
  let page := pageOf pageS
  let limit := limitOf limitS
  let tp := totalPagesOf total limit
  { page := page, limit := limit, total := total, totalPages := tp,
    hasNext := jLt page tp, hasPrev := jGt page (JNum.num 1) }

/-- The row slice returned by a list handler, applied to the filtered and
sorted row set: `offset = (page-1)*limit`, then `LIMIT limit`. The model
does not commit to a row set when either clamp is NaN (the SQL layer is
handed NaN in that case). -/
def listData {α : Type} (rows : List α) (pageS limitS : Option String) : Option (List α) :=
  match pageOf pageS, limitOf limitS with
  | JNum.num p, JNum.num l => some ((rows.drop ((p - 1) * l).toNat).take l.toNat)
  | _, _ => none

/-- A list endpoint applied to the already-filtered, already-sorted rows:
the data slice plus the pagination block over the matching total count. -/
def listEndpoint {α : Type} (rows : List α) (pageS limitS : Option String) :
    Option (List α) × PaginationInfo :=
  (listData rows pageS limitS, paginationOf pageS limitS rows.length)

/-! ### Handler scaffolding: responses, environment oracles, rows -/

/-- A controller response: an error envelope (status code, message) or a
success carrying the new table state and/or returned data. An `err` result
performs no database write. -/
inductive Res (α : Type) where
  | err (code : Nat) (msg : String)
  | ok (code : Nat) (val : α)
deriving Repr, DecidableEq

/-- Table state after a response whose success value is the new table. -/
def dbAfter {ρ : Type} (db : List ρ) : Res (List ρ) → List ρ
  | Res.err _ _ => db
  | Res.ok _ db2 => db2

/-- Table state after a response carrying the new table and the affected row. -/
def dbAfterP {ρ α : Type} (db : List ρ) : Res (List ρ × α) → List ρ
  | Res.err _ _ => db
  | Res.ok _ v => v.1

/-- Clock- and platform-dependent collaborators abstracted as oracles:
`now` is `new Date().toISOString()`, `currentYear` is
`new Date().getFullYear()`, `dateInFuture` is driver.ts `isDateInFuture`,
`ageOk` is helpers `isValidAge`, `urlOk` the `new URL`-based
`validateImageUrl`, and `vehImgsOk` the JSON-parsing
`validateVehicleImageUrls`. -/
structure Env where
  now : String
  currentYear : Int
  dateInFuture : String → Bool
  ageOk : String → Bool
  urlOk : String → Bool
  vehImgsOk : String → Bool

/-- A row of the `users` table (db/schema.ts). -/
structure UserRow where
  id : Nat
  email : String
  phoneNumber : String
  firstName : String
  lastName : String
  profileImage : Option String
  dateOfBirth : Option String
  gender : Option String
  userType : String
  isActive : Bool
  isVerified : Bool
  uuid : String
  createdAt : String
  updatedAt : String
deriving Repr, DecidableEq

/-- A row of the `drivers` table (db/schema.ts). -/
structure DriverRow where
  id : Nat
  user_uuid : String
  licenseNumber : String
  licenseExpiryDate : String
  licenseImageUrl : String
  aadharNumber : String
  aadharImageUrl : String
  panNumber : Option String
  panImageUrl : Option String
  policeVerificationCertUrl : Option String
  backgroundCheckStatus : String
  emergencyContactName : String
  emergencyContactPhone : String
  bankAccountNumber : Option String
  bankIfscCode : Option String
  bankAccountHolderName : Option String
  upiId : Option String
  status : String
  approvedAt : Option String
  rejectedAt : Option String
  rejectionReason : Option String
  rating : Rat
  totalRides : Int
  totalEarnings : Rat
  isOnline : Bool
  lastOnlineAt : Option String
  createdAt : String
  updatedAt : String
deriving Repr, DecidableEq

/-- A row of the `vehicles` table (db/schema.ts). -/
structure VehicleRow where
  id : Nat
  driverId : Int
  vehicleType : String
  registrationNumber : String
  make : String
  model : String
  year : Int
  color : String
  capacity : Int
  rcImageUrl : String
  insuranceCertUrl : String
  insuranceExpiryDate : String
  pucCertUrl : Option String
  pucExpiryDate : Option String
  permitImageUrl : Option String
  permitExpiryDate : Option String
  vehicleImageUrls : Option String
  isActive : Bool
  verificationStatus : String
  createdAt : String
  updatedAt : String
deriving Repr, DecidableEq

/-- A row of the `schools` table (db/schema.ts). `workingDays` and
`holidays` are stored JSON-encoded; the encode/decode round trip is elided
and the decoded lists kept. -/
structure SchoolRow where
  id : Nat
  name : String
  code : String
  address : String
  latitude : Rat
  longitude : Rat
  city : String
  state : String
  pincode : String
  phone : Option String
  email : Option String
  principalName : Option String
  schoolType : String
  boardType : Option String
  startTime : String
  endTime : String
  workingDays : List String
  holidays : Option (List String)
  isActive : Bool
  createdAt : String
  updatedAt : String
deriving Repr, DecidableEq

/-! ### Delete handlers -/

/-- driver.ts `deleteDriver`: the `:mode` segment is lowercased, must then be
`soft` or `hard`; soft delete sets `status` to `inactive` and refreshes
`updatedAt` (and nothing else); hard delete removes the row. -/
def deleteDriver (db : List DriverRow) (uuid mode now : String) :
    Res (List DriverRow) :=
  let m := toLowerJS mode
  if uuid = "" then Res.err 400 "User UUID is required"
  else if ¬ (m = "soft" ∨ m = "hard") then
    Res.err 400 "Invalid delete mode. Must be \"soft\" or \"hard\"."
  else
    match db.find? (fun r => r.user_uuid = uuid) with
    | none => Res.err 404 "Driver not found"
    | some _ =>
      if m = "soft" then
        Res.ok 200 (db.map (fun r =>
          if r.user_uuid = uuid then { r with status := "inactive", updatedAt := now } else r))
      else
        Res.ok 200 (db.filter (fun r => r.user_uuid ≠ uuid))

/-- user.ts `deleteUser`: the `:deleteType` segment defaults to `soft` when
falsy and must literally be `soft` or `hard`; soft delete clears `isActive`
and refreshes `updatedAt`; hard delete removes the row. -/
def deleteUser (db : List UserRow) (uuid deleteType now : String) :
    Res (List UserRow × UserRow) :=
  let dt := if deleteType = "" then "soft" else deleteType
  if uuid = "" then Res.err 400 "User uuid is required"
  else if ¬ (dt = "soft" ∨ dt = "hard") then
    Res.err 400 "Invalid delete type. It must be either \"soft\" or \"hard\""
  else
    match db.find? (fun r => r.uuid = uuid) with
    | none => Res.err 404 "User not found"
    | some old =>
      if dt = "soft" then
        Res.ok 200
          (db.map (fun r =>
            if r.uuid = uuid then { r with isActive := false, updatedAt := now } else r),
           { old with isActive := false, updatedAt := now })
      else
        Res.ok 200 (db.filter (fun r => r.uuid ≠ uuid), old)

/-! ### Partial updates: the `updateData` objects and first-error checks -/

/-- First error produced by an ordered sequence of checks (the controllers
return on the first failing validation). -/
def firstSome {α : Type} : List (Option α) → Option α
  | [] => none
  | none :: rest => firstSome rest
  | some a :: _ => some a

theorem firstSome_eq_none {α : Type} {l : List (Option α)} :
    firstSome l = none ↔ ∀ o ∈ l, o = none := by
  induction l with
  | nil => simp [firstSome]
  | cons h t ih =>
    match h with
    | none => simp [firstSome, ih]
    | some a => simp [firstSome]

def inList (x : String) (l : List String) : Bool := l.contains x

/-- `if (body.f !== undefined) { if (bad(f)) return 400 msg }`. -/
def chkOpt {α : Type} (o : Option α) (bad : α → Bool) (msg : String) :
    Option (Nat × String) :=
  match o with
  | some v => if bad v then some (400, msg) else none
  | none => none

/-- As `chkOpt` but with an explicit status code (used for the mid-update
404 on a missing referenced parent). -/
def chkOptAt {α : Type} (code : Nat) (o : Option α) (bad : α → Bool) (msg : String) :
    Option (Nat × String) :=
  match o with
  | some v => if bad v then some (code, msg) else none
  | none => none

/-- `if (body.f !== undefined) { if (body.f && bad(f)) return 400 msg }`:
the check is skipped for a falsy (empty) provided value. -/
def chkTruthy (o : Option String) (bad : String → Bool) (msg : String) :
    Option (Nat × String) :=
  match o with
  | some s => if s ≠ "" ∧ bad s then some (400, msg) else none
  | none => none

/-- Same for a nullable body field (`string | null | undefined`). -/
def chkNullable (o : Option (Option String)) (bad : String → Bool) (msg : String) :
    Option (Nat × String) :=
  match o with
  | some (some s) => if s ≠ "" ∧ bad s then some (400, msg) else none
  | _ => none

/-- Required-field check by JS truthiness (`!body[field]`). -/
def reqStr (v : String) (name : String) : Option (Nat × String) :=
  if v = "" then some (400, name ++ " is required") else none

/-- Required-field check `=== undefined || === null` for a non-string field. -/
def reqSome {α : Type} (o : Option α) (name : String) : Option (Nat × String) :=
  if o.isNone then some (400, name ++ " is required") else none

/-- Mutation applied to a nullable string field guarded by truthiness:
`if (body.f) body.f = sanitizeInput(body.f)`. -/
def sanTruthy (pv : Option String) : Option String :=
  match pv with
  | none => none
  | some s => if s = "" then some "" else some (sanitizeInput s)

/-- Same with `.toUpperCase()` applied first. -/
def sanTruthyUpper (pv : Option String) : Option String :=
  match pv with
  | none => none
  | some s => if s = "" then some "" else some (sanitizeInput (toUpperJS s))

/-- Same with `.toLowerCase()` applied first. -/
def sanTruthyLower (pv : Option String) : Option String :=
  match pv with
  | none => none
  | some s => if s = "" then some "" else some (sanitizeInput (toLowerJS s))

/-- types/driver.ts `UpdateDriverRequest`: every field optional; nullable
document/bank fields admit an explicit null (`Option (Option String)`:
outer layer = present in the body, inner = null vs string). -/
structure UpdateDriverReq where
  licenseNumber : Option String := none
  licenseExpiryDate : Option String := none
  licenseImageUrl : Option String := none
  aadharNumber : Option String := none
  aadharImageUrl : Option String := none
  panNumber : Option (Option String) := none
  panImageUrl : Option (Option String) := none
  policeVerificationCertUrl : Option (Option String) := none
  emergencyContactName : Option String := none
  emergencyContactPhone : Option String := none
  bankAccountNumber : Option (Option String) := none
  bankIfscCode : Option (Option String) := none
  bankAccountHolderName : Option (Option String) := none
  upiId : Option (Option String) := none
  backgroundCheckStatus : Option String := none
  status : Option String := none
  rejectionReason : Option (Option String) := none
  rating : Option Rat := none
  totalRides : Option Int := none
  totalEarnings : Option Rat := none
  isOnline : Option Bool := none
deriving Repr, DecidableEq

/-- The `updateData` object of driver.ts `updateDriver`: a field is `some v`
exactly when the handler assigned `v` into `updateData`. -/
structure DriverUpd where
  licenseNumber : Option String
  licenseExpiryDate : Option String
  licenseImageUrl : Option String
  aadharNumber : Option String
  aadharImageUrl : Option String
  panNumber : Option (Option String)
  panImageUrl : Option (Option String)
  policeVerificationCertUrl : Option (Option String)
  emergencyContactName : Option String
  emergencyContactPhone : Option String
  bankAccountNumber : Option (Option String)
  bankIfscCode : Option (Option String)
  bankAccountHolderName : Option (Option String)
  upiId : Option (Option String)
  backgroundCheckStatus : Option String
  status : Option String
  rejectionReason : Option (Option String)
  rating : Option Rat
  totalRides : Option Int
  totalEarnings : Option Rat
  isOnline : Option Bool
  approvedAt : Option (Option String)
  rejectedAt : Option (Option String)
  lastOnlineAt : Option String
  updatedAt : String
deriving Repr, DecidableEq

/-- The field assignments of `updateDriver` (each fires exactly when the
body provides the field and its validation passes; the status/online delta
assignments are added afterwards by `driverDelta`). -/
def driverUpdData (b : UpdateDriverReq) (now : String) : DriverUpd :=
  { licenseNumber := b.licenseNumber.map (fun s => sanitizeInput (toUpperJS s)),
    licenseExpiryDate := b.licenseExpiryDate,
    licenseImageUrl := b.licenseImageUrl,
    aadharNumber := b.aadharNumber.map sanitizeInput,
    aadharImageUrl := b.aadharImageUrl,
    panNumber := b.panNumber.map sanTruthyUpper,
    panImageUrl := b.panImageUrl,
    policeVerificationCertUrl := b.policeVerificationCertUrl,
    emergencyContactName := b.emergencyContactName.map sanitizeInput,
    emergencyContactPhone := b.emergencyContactPhone.map sanitizeInput,
    bankAccountNumber := b.bankAccountNumber.map sanTruthy,
    bankIfscCode := b.bankIfscCode.map sanTruthyUpper,
    bankAccountHolderName := b.bankAccountHolderName.map sanTruthy,
    upiId := b.upiId.map sanTruthyLower,
    backgroundCheckStatus := b.backgroundCheckStatus,
    status := b.status,
    rejectionReason := b.rejectionReason,
    rating := b.rating,
    totalRides := b.totalRides,
    totalEarnings := b.totalEarnings,
    isOnline := b.isOnline,
    approvedAt := none,
    rejectedAt := none,
    lastOnlineAt := none,
    updatedAt := now }

/-- The status- and online-delta assignments (driver.ts lines 668-681):
entering `approved` stamps `approvedAt` and clears `rejectedAt` and
`rejectionReason` (overriding any body-provided `rejectionReason`);
entering `rejected` stamps `rejectedAt` and clears `approvedAt`; an
`isOnline` flip stamps `lastOnlineAt`. -/
def driverDelta (u : DriverUpd) (old : DriverRow) (b : UpdateDriverReq) (now : String) :
    DriverUpd :=
  let u1 :=
    if b.status = some "approved" ∧ old.status ≠ "approved" then
      { u with approvedAt := some (some now), rejectedAt := some none,
               rejectionReason := some none }
    else if b.status = some "rejected" ∧ old.status ≠ "rejected" then
      { u with rejectedAt := some (some now), approvedAt := some none }
    else u
  match b.isOnline with
  | some v => if v ≠ old.isOnline then { u1 with lastOnlineAt := some now } else u1
  | none => u1

/-- `db.update(drivers).set(updateData)`: assigned fields overwrite, all
others keep their stored values. -/
def applyDriverUpdate (r : DriverRow) (u : DriverUpd) : DriverRow :=
  { r with
    licenseNumber := u.licenseNumber.getD r.licenseNumber,
    licenseExpiryDate := u.licenseExpiryDate.getD r.licenseExpiryDate,
    licenseImageUrl := u.licenseImageUrl.getD r.licenseImageUrl,
    aadharNumber := u.aadharNumber.getD r.aadharNumber,
    aadharImageUrl := u.aadharImageUrl.getD r.aadharImageUrl,
    panNumber := u.panNumber.getD r.panNumber,
    panImageUrl := u.panImageUrl.getD r.panImageUrl,
    policeVerificationCertUrl := u.policeVerificationCertUrl.getD r.policeVerificationCertUrl,
    emergencyContactName := u.emergencyContactName.getD r.emergencyContactName,
    emergencyContactPhone := u.emergencyContactPhone.getD r.emergencyContactPhone,
    bankAccountNumber := u.bankAccountNumber.getD r.bankAccountNumber,
    bankIfscCode := u.bankIfscCode.getD r.bankIfscCode,
    bankAccountHolderName := u.bankAccountHolderName.getD r.bankAccountHolderName,
    upiId := u.upiId.getD r.upiId,
    backgroundCheckStatus := u.backgroundCheckStatus.getD r.backgroundCheckStatus,
    status := u.status.getD r.status,
    rejectionReason := u.rejectionReason.getD r.rejectionReason,
    rating := u.rating.getD r.rating,
    totalRides := u.totalRides.getD r.totalRides,
    totalEarnings := u.totalEarnings.getD r.totalEarnings,
    isOnline := u.isOnline.getD r.isOnline,
    approvedAt := u.approvedAt.getD r.approvedAt,
    rejectedAt := u.rejectedAt.getD r.rejectedAt,
    lastOnlineAt := (match u.lastOnlineAt with
      | some t => some t
      | none => r.lastOnlineAt),
    updatedAt := u.updatedAt }

/-- The duplicate query of `updateDriver`: another row (excluded by
`user_uuid != uuid`) matching any truthily-provided unique field. -/
def drvDupPred (uuid : String) (lic aad : Option String) (pan : Option (Option String))
    (r : DriverRow) : Bool :=
  r.user_uuid ≠ uuid ∧
  (lic.any (fun v => v ≠ "" ∧ r.licenseNumber = v) ∨
   aad.any (fun v => v ≠ "" ∧ r.aadharNumber = v) ∨
   pan.any (fun pv => pv.any (fun v => v ≠ "" ∧ r.panNumber = some v)))

/-- Conflict-field naming on a found duplicate (`===` comparisons against
the possibly-absent body fields). -/
def drvConflictMsg (lic aad : Option String) (pan : Option (Option String))
    (r : DriverRow) : String :=
  if lic.any (fun v => r.licenseNumber = v) then "License number already exists"
  else if aad.any (fun v => r.aadharNumber = v) then "Aadhar number already exists"
  else if pan.any (fun v => r.panNumber = v) then "PAN number already exists"
  else " already exists"

/-- The two-stage licence-expiry check (format, then future). -/
def drvChkExpiry (env : Env) (o : Option String) : Option (Nat × String) :=
  match o with
  | some d =>
    if ¬ validateDateFormat d then
      some (400, "License expiry date must be in YYYY-MM-DD format")
    else if ¬ env.dateInFuture d then
      some (400, "License expiry date must be in the future")
    else none
  | none => none

/-- The duplicate check of `updateDriver` (409 naming the conflict field). -/
def drvChkDup (db : List DriverRow) (uuid : String) (u : DriverUpd) :
    Option (Nat × String) :=
  match db.find? (drvDupPred uuid u.licenseNumber u.aadharNumber u.panNumber) with
  | some r => some (409, drvConflictMsg u.licenseNumber u.aadharNumber u.panNumber r)
  | none => none

/-- All error exits of `updateDriver` after the 404 existence check, in
source order: per-field validation failures, then the duplicate check. -/
def driverUpdErr (env : Env) (db : List DriverRow) (uuid : String)
    (b : UpdateDriverReq) : Option (Nat × String) :=
  let u := driverUpdData b env.now
  firstSome [
    chkOpt u.licenseNumber (fun v => ¬ validateLicenseNumber v)
      "Invalid license number format",
    drvChkExpiry env b.licenseExpiryDate,
    chkTruthy b.licenseImageUrl (fun s => ¬ env.urlOk s)
      "Please provide a valid license image URL",
    chkOpt u.aadharNumber (fun v => ¬ validateAadhar v)
      "Aadhar number must be 12 digits",
    chkTruthy b.aadharImageUrl (fun s => ¬ env.urlOk s)
      "Please provide a valid aadhar image URL",
    chkNullable b.panNumber (fun s => ¬ validatePAN (sanitizeInput (toUpperJS s)))
      "Invalid PAN number format",
    chkNullable b.panImageUrl (fun s => ¬ env.urlOk s)
      "Please provide a valid PAN image URL",
    chkNullable b.policeVerificationCertUrl (fun s => ¬ env.urlOk s)
      "Please provide a valid police verification certificate URL",
    chkOpt u.emergencyContactName (fun v => ¬ validateNameDriver v)
      "Emergency contact name must be 2-100 characters and contain only letters and spaces",
    chkOpt u.emergencyContactPhone (fun v => ¬ validatePhone v)
      "Invalid emergency contact phone number",
    chkNullable b.bankIfscCode (fun s => ¬ validateIFSC (sanitizeInput (toUpperJS s)))
      "Invalid IFSC code format",
    chkNullable b.bankAccountHolderName (fun s => ¬ validateNameDriver (sanitizeInput s))
      "Bank account holder name must be 2-100 characters and contain only letters and spaces",
    chkNullable b.upiId (fun s => ¬ validateUPI (sanitizeInput (toLowerJS s)))
      "Invalid UPI ID format",
    chkOpt b.backgroundCheckStatus
      (fun s => ¬ inList s ["pending", "in_progress", "approved", "rejected"])
      "Invalid background check status. Must be one of: pending, in_progress, approved, rejected",
    chkOpt b.status
      (fun s => ¬ inList s ["pending", "under_review", "approved", "rejected", "suspended", "inactive"])
      "Invalid status. Must be one of: pending, under_review, approved, rejected, suspended, inactive",
    chkOpt b.rating (fun r => r < 0 ∨ r > 5) "Rating must be between 0 and 5",
    chkOpt b.totalRides (fun n => n < 0) "Total rides cannot be negative",
    chkOpt b.totalEarnings (fun e => e < 0) "Total earnings cannot be negative",
    drvChkDup db uuid u
  ]

/-- driver.ts `updateDriver`: existence check, field validations in source
order, duplicate check excluding the row itself, status/online delta
stamps, then one `UPDATE … SET updateData`. -/
def updateDriver (env : Env) (db : List DriverRow) (uuid : String) (b : UpdateDriverReq) :
    Res (List DriverRow × DriverRow) :=
  if uuid = "" then Res.err 400 "User UUID is required"
  else
    match db.find? (fun r => r.user_uuid = uuid) with
    | none => Res.err 404 "Driver not found"
    | some old =>
      match driverUpdErr env db uuid b with
      | some (c, m) => Res.err c m
      | none =>
        let u := driverDelta (driverUpdData b env.now) old b env.now
        Res.ok 200
          (db.map (fun r => if r.user_uuid = uuid then applyDriverUpdate r u else r),
           applyDriverUpdate old u)

/-- user.ts `UpdateUserRequest`. -/
structure UpdateUserReq where
  email : Option String := none
  phoneNumber : Option String := none
  firstName : Option String := none
  lastName : Option String := none
  profileImage : Option String := none
  dateOfBirth : Option String := none
  gender : Option String := none
  userType : Option String := none
  isActive : Option Bool := none
  isVerified : Option Bool := none
deriving Repr, DecidableEq

/-- The `updateData` object of user.ts `updateUser`. -/
structure UserUpd where
  email : Option String
  phoneNumber : Option String
  firstName : Option String
  lastName : Option String
  dateOfBirth : Option String
  profileImage : Option String
  gender : Option String
  userType : Option String
  isActive : Option Bool
  isVerified : Option Bool
  updatedAt : String
deriving Repr, DecidableEq

def userUpdData (b : UpdateUserReq) (now : String) : UserUpd :=
  { email := b.email.map (fun s => sanitizeInput (toLowerJS s)),
    phoneNumber := b.phoneNumber.map sanitizeInput,
    firstName := b.firstName.map sanitizeInput,
    lastName := b.lastName.map sanitizeInput,
    dateOfBirth := b.dateOfBirth,
    profileImage := b.profileImage,
    gender := b.gender,
    userType := b.userType,
    isActive := b.isActive,
    isVerified := b.isVerified,
    updatedAt := now }

def applyUserUpdate (r : UserRow) (u : UserUpd) : UserRow :=
  { r with
    email := u.email.getD r.email,
    phoneNumber := u.phoneNumber.getD r.phoneNumber,
    firstName := u.firstName.getD r.firstName,
    lastName := u.lastName.getD r.lastName,
    dateOfBirth := (match u.dateOfBirth with
      | some v => some v
      | none => r.dateOfBirth),
    profileImage := (match u.profileImage with
      | some v => some v
      | none => r.profileImage),
    gender := (match u.gender with
      | some v => some v
      | none => r.gender),
    userType := u.userType.getD r.userType,
    isActive := u.isActive.getD r.isActive,
    isVerified := u.isVerified.getD r.isVerified,
    updatedAt := u.updatedAt }

/-- The two-stage date-of-birth check of `updateUser` (format, then age),
each stage truthiness-guarded. -/
def usrChkDob (env : Env) (o : Option String) : Option (Nat × String) :=
  match o with
  | some d =>
    if d ≠ "" ∧ ¬ validateDateFormat d then
      some (400, "Date of birth must be in YYYY-MM-DD format")
    else if d ≠ "" ∧ ¬ env.ageOk d then
      some (400, "Age must be between 13 and 120 years")
    else none
  | none => none

/-- A uniqueness pre-check on update: 409 when some other row (identifier
different from the row being updated) already holds the value. -/
def chkDupBy {ρ : Type} (o : Option String) (db : List ρ) (taken : ρ → String → Bool)
    (code : Nat) (msg : String) : Option (Nat × String) :=
  match o with
  | some v => if (db.find? (fun r => taken r v)).isSome then some (code, msg) else none
  | none => none

def userUpdErr (env : Env) (db : List UserRow) (uuid : String) (b : UpdateUserReq) :
    Option (Nat × String) :=
  let u := userUpdData b env.now
  firstSome [
    chkOpt u.email (fun v => ¬ validateEmail v)
      "Please provide a valid email address",
    chkDupBy u.email db (fun r v => r.email = v ∧ r.uuid ≠ uuid) 409
      "Email already exists",
    chkOpt u.phoneNumber (fun v => ¬ validatePhone v)
      "Please provide a valid Indian mobile number (10 digits starting with 6-9)",
    chkDupBy u.phoneNumber db (fun r v => r.phoneNumber = v ∧ r.uuid ≠ uuid) 409
      "Phone number already exists",
    chkOpt u.firstName (fun v => ¬ validateNameUser v)
      "First name must be 2-50 characters and contain only letters and spaces",
    chkOpt u.lastName (fun v => ¬ validateNameUser v)
      "Last name must be 2-50 characters and contain only letters and spaces",
    usrChkDob env b.dateOfBirth,
    chkTruthy b.profileImage (fun s => ¬ env.urlOk s)
      "Please provide a valid image URL",
    chkTruthy b.gender (fun g => ¬ inList g ["male", "female", "other"])
      "Invalid gender. Must be one of: male, female, other",
    chkOpt b.userType (fun t => ¬ inList t ["customer", "driver", "parent", "student", "guardian"])
      "Invalid user type. Must be one of: customer, driver, parent, student, guardian"
  ]

/-- user.ts `updateUser`. -/
def updateUser (env : Env) (db : List UserRow) (uuid : String) (b : UpdateUserReq) :
    Res (List UserRow × UserRow) :=
  if uuid = "" then Res.err 400 "User uuid is required"
  else
    match db.find? (fun r => r.uuid = uuid) with
    | none => Res.err 404 "User not found"
    | some old =>
      match userUpdErr env db uuid b with
      | some (c, m) => Res.err c m
      | none =>
        let u := userUpdData b env.now
        Res.ok 200
          (db.map (fun r => if r.uuid = uuid then applyUserUpdate r u else r),
           applyUserUpdate old u)

/-! ### Vehicle handlers -/

/-- Next autoincrement id (abstraction of the D1 rowid allocator). -/
def nextId (ids : List Nat) : Nat := ids.foldr max 0 + 1

/-- vehicle.ts `CreateVehicleRequest`; required string fields model an
absent key as `""` (the explicit required check treats `undefined`, `null`
and `''` alike), required numeric fields as `none`. -/
structure CreateVehicleReq where
  driverId : Option Int := none
  vehicleType : String := ""
  registrationNumber : String := ""
  make : String := ""
  model : String := ""
  year : Option Int := none
  color : String := ""
  capacity : Option Int := none
  rcImageUrl : String := ""
  insuranceCertUrl : String := ""
  insuranceExpiryDate : String := ""
  pucCertUrl : Option String := none
  pucExpiryDate : Option String := none
  permitImageUrl : Option String := none
  permitExpiryDate : Option String := none
  vehicleImageUrls : Option String := none
deriving Repr, DecidableEq

/-- A bare condition check producing the given error. -/
def chkIf (c : Bool) (code : Nat) (msg : String) : Option (Nat × String) :=
  if c then some (code, msg) else none

/-- All error exits of `createVehicle`, in source order. -/
def createVehicleErr (env : Env) (drvDb : List DriverRow) (vdb : List VehicleRow)
    (b : CreateVehicleReq) : Option (Nat × String) :=
  let reg := sanitizeInput (toUpperJS b.registrationNumber)
  firstSome [
    reqSome b.driverId "driverId",
    reqStr b.vehicleType "vehicleType",
    reqStr b.registrationNumber "registrationNumber",
    reqStr b.make "make",
    reqStr b.model "model",
    reqSome b.year "year",
    reqStr b.color "color",
    reqSome b.capacity "capacity",
    reqStr b.rcImageUrl "rcImageUrl",
    reqStr b.insuranceCertUrl "insuranceCertUrl",
    reqStr b.insuranceExpiryDate "insuranceExpiryDate",
    chkIf (drvDb.find? (fun d => b.driverId.any (fun i => (d.id : Int) = i))).isNone 404
      "Driver not found",
    chkIf (¬ inList b.vehicleType ["auto", "car", "bike", "bus", "van"]) 400
      "Invalid vehicle type. Must be one of: auto, car, bike, bus, van",
    chkIf (¬ validateRegistrationNumber reg) 400
      "Invalid registration number format. Expected format: XX00XX0000",
    chkOpt b.year (fun y => ¬ validateYear env.currentYear y)
      ("Invalid year. Must be between 1990 and " ++ toString env.currentYear),
    chkOpt b.capacity (fun cap => ¬ validateCapacity cap b.vehicleType)
      ("Invalid capacity for vehicle type " ++ b.vehicleType),
    chkIf (¬ env.urlOk b.rcImageUrl) 400 "Invalid RC image URL",
    chkIf (¬ env.urlOk b.insuranceCertUrl) 400 "Invalid insurance certificate URL",
    chkIf (¬ validateDateFormat b.insuranceExpiryDate) 400
      "Insurance expiry date must be in YYYY-MM-DD format",
    chkTruthy b.pucCertUrl (fun s => ¬ env.urlOk s) "Invalid PUC certificate URL",
    chkTruthy b.pucExpiryDate (fun s => ¬ validateDateFormat s)
      "PUC expiry date must be in YYYY-MM-DD format",
    chkTruthy b.permitImageUrl (fun s => ¬ env.urlOk s) "Invalid permit image URL",
    chkTruthy b.permitExpiryDate (fun s => ¬ validateDateFormat s)
      "Permit expiry date must be in YYYY-MM-DD format",
    chkTruthy b.vehicleImageUrls (fun s => ¬ env.vehImgsOk s)
      "Invalid vehicle image URLs. Must be a valid JSON array of image URLs",
    chkIf (vdb.find? (fun v => v.registrationNumber = reg)).isSome 409
      "Vehicle with this registration number already exists"
  ]

/-- The row `createVehicle` inserts (the `.values({...})` literal: sanitized
strings, schema defaults, empty optional strings collapsed to null). -/
def createVehicleRow (env : Env) (vdb : List VehicleRow) (b : CreateVehicleReq) :
    VehicleRow :=
  { id := nextId (vdb.map (fun v => v.id)),
    driverId := b.driverId.getD 0,
    vehicleType := b.vehicleType,
    registrationNumber := sanitizeInput (toUpperJS b.registrationNumber),
    make := sanitizeInput b.make,
    model := sanitizeInput b.model,
    year := b.year.getD 0,
    color := sanitizeInput b.color,
    capacity := b.capacity.getD 0,
    rcImageUrl := b.rcImageUrl,
    insuranceCertUrl := b.insuranceCertUrl,
    insuranceExpiryDate := b.insuranceExpiryDate,
    pucCertUrl := orNull b.pucCertUrl,
    pucExpiryDate := orNull b.pucExpiryDate,
    permitImageUrl := orNull b.permitImageUrl,
    permitExpiryDate := orNull b.permitExpiryDate,
    vehicleImageUrls := orNull b.vehicleImageUrls,
    isActive := true,
    verificationStatus := "pending",
    createdAt := env.now,
    updatedAt := env.now }

/-- vehicle.ts `createVehicle`: sanitize, validate, check the parent driver
and registration uniqueness, then insert. -/
def createVehicle (env : Env) (drvDb : List DriverRow) (vdb : List VehicleRow)
    (b : CreateVehicleReq) : Res (List VehicleRow × VehicleRow) :=
  match createVehicleErr env drvDb vdb b with
  | some (c, m) => Res.err c m
  | none =>
    Res.ok 201 (vdb ++ [createVehicleRow env vdb b], createVehicleRow env vdb b)

/-- vehicle.ts `UpdateVehicleRequest`. -/
structure UpdateVehicleReq where
  driverId : Option Int := none
  vehicleType : Option String := none
  registrationNumber : Option String := none
  make : Option String := none
  model : Option String := none
  year : Option Int := none
  color : Option String := none
  capacity : Option Int := none
  rcImageUrl : Option String := none
  insuranceCertUrl : Option String := none
  insuranceExpiryDate : Option String := none
  pucCertUrl : Option String := none
  pucExpiryDate : Option String := none
  permitImageUrl : Option String := none
  permitExpiryDate : Option String := none
  vehicleImageUrls : Option String := none
  isActive : Option Bool := none
  verificationStatus : Option String := none
deriving Repr, DecidableEq

/-- The `updateData` object of vehicle.ts `updateVehicle`. -/
structure VehicleUpd where
  driverId : Option Int
  vehicleType : Option String
  registrationNumber : Option String
  make : Option String
  model : Option String
  year : Option Int
  color : Option String
  capacity : Option Int
  rcImageUrl : Option String
  insuranceCertUrl : Option String
  insuranceExpiryDate : Option String
  pucCertUrl : Option String
  pucExpiryDate : Option String
  permitImageUrl : Option String
  permitExpiryDate : Option String
  vehicleImageUrls : Option String
  isActive : Option Bool
  verificationStatus : Option String
  updatedAt : String
deriving Repr, DecidableEq

def vehicleUpdData (b : UpdateVehicleReq) (now : String) : VehicleUpd :=
  { driverId := b.driverId,
    vehicleType := b.vehicleType,
    registrationNumber := b.registrationNumber.map (fun s => sanitizeInput (toUpperJS s)),
    make := b.make.map sanitizeInput,
    model := b.model.map sanitizeInput,
    year := b.year,
    color := b.color.map sanitizeInput,
    capacity := b.capacity,
    rcImageUrl := b.rcImageUrl,
    insuranceCertUrl := b.insuranceCertUrl,
    insuranceExpiryDate := b.insuranceExpiryDate,
    pucCertUrl := b.pucCertUrl,
    pucExpiryDate := b.pucExpiryDate,
    permitImageUrl := b.permitImageUrl,
    permitExpiryDate := b.permitExpiryDate,
    vehicleImageUrls := b.vehicleImageUrls,
    isActive := b.isActive,
    verificationStatus := b.verificationStatus,
    updatedAt := now }

/-- Vehicle type used by the capacity check on update:
`body.vehicleType || existingVehicle[0].vehicleType`. -/
def effVehicleType (b : UpdateVehicleReq) (old : VehicleRow) : String :=
  match b.vehicleType with
  | some t => if t = "" then old.vehicleType else t
  | none => old.vehicleType

/-- Nullable-column assignment from a non-nullable body field: a provided
value (including `""`) overwrites, an absent key keeps the stored value. -/
def setOpt (u : Option String) (r : Option String) : Option String :=
  match u with
  | some v => some v
  | none => r

def applyVehicleUpdate (r : VehicleRow) (u : VehicleUpd) : VehicleRow :=
  { r with
    driverId := u.driverId.getD r.driverId,
    vehicleType := u.vehicleType.getD r.vehicleType,
    registrationNumber := u.registrationNumber.getD r.registrationNumber,
    make := u.make.getD r.make,
    model := u.model.getD r.model,
    year := u.year.getD r.year,
    color := u.color.getD r.color,
    capacity := u.capacity.getD r.capacity,
    rcImageUrl := u.rcImageUrl.getD r.rcImageUrl,
    insuranceCertUrl := u.insuranceCertUrl.getD r.insuranceCertUrl,
    insuranceExpiryDate := u.insuranceExpiryDate.getD r.insuranceExpiryDate,
    pucCertUrl := setOpt u.pucCertUrl r.pucCertUrl,
    pucExpiryDate := setOpt u.pucExpiryDate r.pucExpiryDate,
    permitImageUrl := setOpt u.permitImageUrl r.permitImageUrl,
    permitExpiryDate := setOpt u.permitExpiryDate r.permitExpiryDate,
    vehicleImageUrls := setOpt u.vehicleImageUrls r.vehicleImageUrls,
    isActive := u.isActive.getD r.isActive,
    verificationStatus := u.verificationStatus.getD r.verificationStatus,
    updatedAt := u.updatedAt }

/-- All error exits of `updateVehicle` after the 404 check, in source order. -/
def vehicleUpdErr (env : Env) (drvDb : List DriverRow) (vdb : List VehicleRow)
    (id : Nat) (old : VehicleRow) (b : UpdateVehicleReq) : Option (Nat × String) :=
  let u := vehicleUpdData b env.now
  firstSome [
    chkOptAt 404 b.driverId (fun d => (drvDb.find? (fun r => (r.id : Int) = d)).isNone)
      "Driver not found",
    chkOpt b.vehicleType (fun t => ¬ inList t ["auto", "car", "bike", "bus", "van"])
      "Invalid vehicle type. Must be one of: auto, car, bike, bus, van",
    chkOpt u.registrationNumber (fun v => ¬ validateRegistrationNumber v)
      "Invalid registration number format. Expected format: XX00XX0000",
    chkDupBy u.registrationNumber vdb (fun r v => r.registrationNumber = v ∧ r.id ≠ id) 409
      "Vehicle with this registration number already exists",
    chkOpt b.year (fun y => ¬ validateYear env.currentYear y)
      ("Invalid year. Must be between 1990 and " ++ toString env.currentYear),
    chkOpt b.capacity (fun cap => ¬ validateCapacity cap (effVehicleType b old))
      ("Invalid capacity for vehicle type " ++ effVehicleType b old),
    chkTruthy b.rcImageUrl (fun s => ¬ env.urlOk s) "Invalid RC image URL",
    chkTruthy b.insuranceCertUrl (fun s => ¬ env.urlOk s)
      "Invalid insurance certificate URL",
    chkTruthy b.insuranceExpiryDate (fun s => ¬ validateDateFormat s)
      "Insurance expiry date must be in YYYY-MM-DD format",
    chkTruthy b.pucCertUrl (fun s => ¬ env.urlOk s) "Invalid PUC certificate URL",
    chkTruthy b.pucExpiryDate (fun s => ¬ validateDateFormat s)
      "PUC expiry date must be in YYYY-MM-DD format",
    chkTruthy b.permitImageUrl (fun s => ¬ env.urlOk s) "Invalid permit image URL",
    chkTruthy b.permitExpiryDate (fun s => ¬ validateDateFormat s)
      "Permit expiry date must be in YYYY-MM-DD format",
    chkTruthy b.vehicleImageUrls (fun s => ¬ env.vehImgsOk s)
      "Invalid vehicle image URLs. Must be a valid JSON array of image URLs",
    chkOpt b.verificationStatus (fun s => ¬ inList s ["pending", "approved", "rejected"])
      "Invalid verification status. Must be one of: pending, approved, rejected"
  ]

/-- vehicle.ts `updateVehicle`: `parseInt` on the id segment (NaN is a 400),
existence check, field validations in source order with the registration
duplicate check excluding the row itself, then one UPDATE. -/
def updateVehicle (env : Env) (drvDb : List DriverRow) (vdb : List VehicleRow)
    (idS : String) (b : UpdateVehicleReq) : Res (List VehicleRow × VehicleRow) :=
  match parseIntJS idS with
  | JNum.nan => Res.err 400 "Invalid vehicle ID"
  | JNum.num idZ =>
    match vdb.find? (fun r => (r.id : Int) = idZ) with
    | none => Res.err 404 "Vehicle not found"
    | some old =>
      match vehicleUpdErr env drvDb vdb old.id old b with
      | some (c, m) => Res.err c m
      | none =>
        let u := vehicleUpdData b env.now
        Res.ok 200
          (vdb.map (fun r => if (r.id : Int) = idZ then applyVehicleUpdate r u else r),
           applyVehicleUpdate old u)

/-- vehicle.ts `deleteVehicle`: `parseInt` on the id segment (NaN is a 400
before the type check), then the `:deleteType` segment defaults to `soft`
when falsy and must literally be `soft` or `hard`; soft delete clears
`isActive` and refreshes `updatedAt`; hard delete removes the row. -/
def deleteVehicle (vdb : List VehicleRow) (idS deleteType now : String) :
    Res (List VehicleRow × VehicleRow) :=
  let dt := if deleteType = "" then "soft" else deleteType
  match parseIntJS idS with
  | JNum.nan => Res.err 400 "Invalid vehicle ID"
  | JNum.num idZ =>
    if ¬ (dt = "soft" ∨ dt = "hard") then
      Res.err 400 "Invalid delete type. It must be either \"soft\" or \"hard\""
    else
      match vdb.find? (fun r => (r.id : Int) = idZ) with
      | none => Res.err 404 "Vehicle not found"
      | some old =>
        if dt = "soft" then
          Res.ok 200
            (vdb.map (fun r =>
              if (r.id : Int) = idZ then { r with isActive := false, updatedAt := now } else r),
             { old with isActive := false, updatedAt := now })
        else
          Res.ok 200 (vdb.filter (fun r => (r.id : Int) ≠ idZ), old)

/-! ### School handlers -/

/-- school controller `CreateSchoolRequest`; the required check is an
explicit `=== undefined || === null` test, so every field is an `Option`
(`""` passes the required check and is caught by validation). -/
structure CreateSchoolReq where
  name : Option String := none
  code : Option String := none
  address : Option String := none
  latitude : Option Rat := none
  longitude : Option Rat := none
  city : Option String := none
  state : Option String := none
  pincode : Option String := none
  phone : Option String := none
  email : Option String := none
  principalName : Option String := none
  schoolType : Option String := none
  boardType : Option String := none
  startTime : Option String := none
  endTime : Option String := none
  workingDays : Option (List String) := none
  holidays : Option (List String) := none
deriving Repr, DecidableEq

/-- The two-sided time check of `createSchool`
(`!validateTime(start) || !validateTime(end)` yields one message). -/
def schChkTimes (startT endT : String) : Option (Nat × String) :=
  if ¬ validateTime startT ∨ ¬ validateTime endT then
    some (400, "Please provide valid time in HH:MM format for start and end times")
  else none

/-- All error exits of `createSchool`, in source order. -/
def createSchoolErr (sdb : List SchoolRow) (b : CreateSchoolReq) :
    Option (Nat × String) :=
  let code := sanitizeInput (toUpperJS (b.code.getD ""))
  firstSome [
    reqSome b.name "name",
    reqSome b.code "code",
    reqSome b.address "address",
    reqSome b.latitude "latitude",
    reqSome b.longitude "longitude",
    reqSome b.city "city",
    reqSome b.state "state",
    reqSome b.pincode "pincode",
    reqSome b.schoolType "schoolType",
    reqSome b.startTime "startTime",
    reqSome b.endTime "endTime",
    reqSome b.workingDays "workingDays",
    chkIf (¬ validateSchoolName (sanitizeInput (b.name.getD ""))) 400
      "School name must be 2-100 characters and contain only letters, numbers, spaces, and basic punctuation",
    chkIf (¬ validateSchoolCode code) 400
      "School code must be 3-20 characters and contain only uppercase letters, numbers, hyphens, and underscores",
    chkIf (¬ validatePincode (sanitizeInput (b.pincode.getD ""))) 400
      "Please provide a valid 6-digit Indian pincode",
    chkIf (¬ validateCoordinates (b.latitude.getD 0) (b.longitude.getD 0)) 400
      "Please provide valid latitude (-90 to 90) and longitude (-180 to 180) coordinates",
    schChkTimes (b.startTime.getD "") (b.endTime.getD ""),
    chkIf (¬ validateWorkingDays (b.workingDays.getD [])) 400
      "Please provide valid working days (monday, tuesday, wednesday, thursday, friday, saturday, sunday)",
    chkTruthy (b.email.map (fun s => sanitizeInput (toLowerJS s)))
      (fun v => ¬ validateEmail v) "Please provide a valid email address",
    chkTruthy (b.phone.map sanitizeInput) (fun v => ¬ validatePhone v)
      "Please provide a valid Indian mobile number (10 digits starting with 6-9)",
    chkIf (¬ inList (b.schoolType.getD "") ["government", "private", "aided", "international", "boarding"]) 400
      "Invalid school type. Must be one of: government, private, aided, international, boarding",
    chkTruthy b.boardType (fun t => ¬ inList t ["cbse", "icse", "state", "igcse", "ib", "other"])
      "Invalid board type. Must be one of: cbse, icse, state, igcse, ib, other",
    chkIf (sdb.find? (fun r => r.code = code)).isSome 409 "School code already exists"
  ]

/-- school controller `createSchool`: sanitize, validate, uniqueness check
on the uppercased code, then insert (default `isActive=true`; empty
optional strings collapse to null). -/
def createSchool (env : Env) (sdb : List SchoolRow) (b : CreateSchoolReq) :
    Res (List SchoolRow × SchoolRow) :=
  match createSchoolErr sdb b with
  | some (c, m) => Res.err c m
  | none =>
    let row : SchoolRow :=
      { id := nextId (sdb.map (fun r => r.id)),
        name := sanitizeInput (b.name.getD ""),
        code := sanitizeInput (toUpperJS (b.code.getD "")),
        address := sanitizeInput (b.address.getD ""),
        latitude := b.latitude.getD 0,
        longitude := b.longitude.getD 0,
        city := sanitizeInput (b.city.getD ""),
        state := sanitizeInput (b.state.getD ""),
        pincode := sanitizeInput (b.pincode.getD ""),
        phone := orNull (b.phone.map sanitizeInput),
        email := orNull (b.email.map (fun s => sanitizeInput (toLowerJS s))),
        principalName := orNull (b.principalName.map sanitizeInput),
        schoolType := b.schoolType.getD "",
        boardType := orNull b.boardType,
        startTime := b.startTime.getD "",
        endTime := b.endTime.getD "",
        workingDays := b.workingDays.getD [],
        holidays := b.holidays,
        isActive := true,
        createdAt := env.now,
        updatedAt := env.now }
    Res.ok 201 (sdb ++ [row], row)

/-- school controller `getSchoolByCode`: the `:code` segment is uppercased
before the equality lookup against the stored (uppercased) code. -/
def getSchoolByCode (db : List SchoolRow) (code : String) : Res SchoolRow :=
  if code = "" then Res.err 400 "School code is required"
  else
    match db.find? (fun r => r.code = toUpperJS code) with
    | none => Res.err 404 "School not found"
    | some r => Res.ok 200 r

/-- school controller `UpdateSchoolRequest`. -/
structure UpdateSchoolReq where
  name : Option String := none
  code : Option String := none
  address : Option String := none
  latitude : Option Rat := none
  longitude : Option Rat := none
  city : Option String := none
  state : Option String := none
  pincode : Option String := none
  phone : Option String := none
  email : Option String := none
  principalName : Option String := none
  schoolType : Option String := none
  boardType : Option String := none
  startTime : Option String := none
  endTime : Option String := none
  workingDays : Option (List String) := none
  holidays : Option (List String) := none
  isActive : Option Bool := none
deriving Repr, DecidableEq

/-- The `updateData` object of `updateSchool`. -/
structure SchoolUpd where
  name : Option String
  code : Option String
  address : Option String
  latitude : Option Rat
  longitude : Option Rat
  city : Option String
  state : Option String
  pincode : Option String
  phone : Option String
  email : Option String
  principalName : Option (Option String)
  schoolType : Option String
  boardType : Option String
  startTime : Option String
  endTime : Option String
  workingDays : Option (List String)
  holidays : Option (List String)
  isActive : Option Bool
  updatedAt : String
deriving Repr, DecidableEq

def schoolUpdData (b : UpdateSchoolReq) (now : String) : SchoolUpd :=
  { name := b.name.map sanitizeInput,
    code := b.code.map (fun s => sanitizeInput (toUpperJS s)),
    address := b.address.map sanitizeInput,
    latitude := b.latitude,
    longitude := b.longitude,
    city := b.city.map sanitizeInput,
    state := b.state.map sanitizeInput,
    pincode := b.pincode.map sanitizeInput,
    phone := b.phone.map (fun s => if s = "" then s else sanitizeInput s),
    email := b.email.map (fun s => if s = "" then s else sanitizeInput (toLowerJS s)),
    principalName := b.principalName.map (fun s =>
      if s = "" then none else some (sanitizeInput s)),
    schoolType := b.schoolType,
    boardType := b.boardType,
    startTime := b.startTime,
    endTime := b.endTime,
    workingDays := b.workingDays,
    holidays := b.holidays,
    isActive := b.isActive,
    updatedAt := now }

def applySchoolUpdate (r : SchoolRow) (u : SchoolUpd) : SchoolRow :=
  { r with
    name := u.name.getD r.name,
    code := u.code.getD r.code,
    address := u.address.getD r.address,
    latitude := u.latitude.getD r.latitude,
    longitude := u.longitude.getD r.longitude,
    city := u.city.getD r.city,
    state := u.state.getD r.state,
    pincode := u.pincode.getD r.pincode,
    phone := setOpt u.phone r.phone,
    email := setOpt u.email r.email,
    principalName := u.principalName.getD r.principalName,
    schoolType := u.schoolType.getD r.schoolType,
    boardType := setOpt u.boardType r.boardType,
    startTime := u.startTime.getD r.startTime,
    endTime := u.endTime.getD r.endTime,
    workingDays := u.workingDays.getD r.workingDays,
    holidays := (match u.holidays with
      | some h => some h
      | none => r.holidays),
    isActive := u.isActive.getD r.isActive,
    updatedAt := u.updatedAt }

/-- The joint coordinate check of `updateSchool`: fires when either
coordinate is provided and validates the provided value together with the
stored value of the other. -/
def schChkCoords (b : UpdateSchoolReq) (old : SchoolRow) : Option (Nat × String) :=
  if b.latitude.isSome ∨ b.longitude.isSome then
    if ¬ validateCoordinates (b.latitude.getD old.latitude) (b.longitude.getD old.longitude) then
      some (400, "Please provide valid latitude (-90 to 90) and longitude (-180 to 180) coordinates")
    else none
  else none

/-- All error exits of `updateSchool` after the 404 check, in source order. -/
def schoolUpdErr (sdb : List SchoolRow) (id : Nat) (old : SchoolRow)
    (b : UpdateSchoolReq) : Option (Nat × String) :=
  let code := b.code.map (fun s => sanitizeInput (toUpperJS s))
  firstSome [
    chkOpt (b.name.map sanitizeInput) (fun v => ¬ validateSchoolName v)
      "School name must be 2-100 characters and contain only letters, numbers, spaces, and basic punctuation",
    chkOpt code (fun v => ¬ validateSchoolCode v)
      "School code must be 3-20 characters and contain only uppercase letters, numbers, hyphens, and underscores",
    chkDupBy code sdb (fun r v => r.code = v ∧ r.id ≠ id) 409
      "School code already exists",
    schChkCoords b old,
    chkOpt (b.pincode.map sanitizeInput) (fun v => ¬ validatePincode v)
      "Please provide a valid 6-digit Indian pincode",
    chkTruthy b.phone (fun s => ¬ validatePhone (sanitizeInput s))
      "Please provide a valid Indian mobile number (10 digits starting with 6-9)",
    chkTruthy b.email (fun s => ¬ validateEmail (sanitizeInput (toLowerJS s)))
      "Please provide a valid email address",
    chkOpt b.schoolType
      (fun t => ¬ inList t ["government", "private", "aided", "international", "boarding"])
      "Invalid school type. Must be one of: government, private, aided, international, boarding",
    chkTruthy b.boardType (fun t => ¬ inList t ["cbse", "icse", "state", "igcse", "ib", "other"])
      "Invalid board type. Must be one of: cbse, icse, state, igcse, ib, other",
    chkOpt b.startTime (fun t => ¬ validateTime t)
      "Please provide valid start time in HH:MM format",
    chkOpt b.endTime (fun t => ¬ validateTime t)
      "Please provide valid end time in HH:MM format",
    chkOpt b.workingDays (fun d => ¬ validateWorkingDays d)
      "Please provide valid working days (monday, tuesday, wednesday, thursday, friday, saturday, sunday)"
  ]

/-- school controller `updateSchool` (the `Number(id)` parse of the path
segment is abstracted into the `id : Nat` argument; a malformed id is a 400
before any read or write). -/
def updateSchool (env : Env) (sdb : List SchoolRow) (id : Nat) (b : UpdateSchoolReq) :
    Res (List SchoolRow × SchoolRow) :=
  match sdb.find? (fun r => r.id = id) with
  | none => Res.err 404 "School not found"
  | some old =>
    match schoolUpdErr sdb id old b with
    | some (c, m) => Res.err c m
    | none =>
      let u := schoolUpdData b env.now
      Res.ok 200
        (sdb.map (fun r => if r.id = id then applySchoolUpdate r u else r),
         applySchoolUpdate old u)

/-- school controller `deleteSchool` (the `Number(id)` parse of the path
segment is abstracted into the `id : Nat` argument; a malformed id is a 400
before any read or write): the `:deleteType` segment defaults to `soft`
when falsy and must literally be `soft` or `hard`; soft delete clears
`isActive` and refreshes `updatedAt`; hard delete removes the row. -/
def deleteSchool (sdb : List SchoolRow) (id : Nat) (deleteType now : String) :
    Res (List SchoolRow × SchoolRow) :=
  let dt := if deleteType = "" then "soft" else deleteType
  if ¬ (dt = "soft" ∨ dt = "hard") then
    Res.err 400 "Invalid delete type. It must be either \"soft\" or \"hard\""
  else
    match sdb.find? (fun r => r.id = id) with
    | none => Res.err 404 "School not found"
    | some old =>
      if dt = "soft" then
        Res.ok 200
          (sdb.map (fun r =>
            if r.id = id then { r with isActive := false, updatedAt := now } else r),
           { old with isActive := false, updatedAt := now })
      else
        Res.ok 200 (sdb.filter (fun r => r.id ≠ id), old)

/-! ### Driver creation -/

/-- types/driver.ts `CreateDriverRequest`; required strings model an absent
key as `""` (the required check is JS truthiness `!body[field]`). -/
structure CreateDriverReq where
  user_uuid : String := ""
  licenseNumber : String := ""
  licenseExpiryDate : String := ""
  licenseImageUrl : String := ""
  aadharNumber : String := ""
  aadharImageUrl : String := ""
  emergencyContactName : String := ""
  emergencyContactPhone : String := ""
  panNumber : Option String := none
  panImageUrl : Option String := none
  policeVerificationCertUrl : Option String := none
  bankAccountNumber : Option String := none
  bankIfscCode : Option String := none
  bankAccountHolderName : Option String := none
  upiId : Option String := none
deriving Repr, DecidableEq

/-- The duplicate query of `createDriver`: any row matching the submitted
licence or Aadhar number, or the PAN when truthily provided. -/
def drvCreateDupPred (b : CreateDriverReq) (r : DriverRow) : Bool :=
  r.licenseNumber = b.licenseNumber ∨ r.aadharNumber = b.aadharNumber ∨
    b.panNumber.any (fun v => v ≠ "" ∧ r.panNumber = some v)

/-- Conflict-field naming for `createDriver` (`===` comparisons). -/
def drvCreateConflictMsg (b : CreateDriverReq) (r : DriverRow) : String :=
  if r.licenseNumber = b.licenseNumber then "License number already exists"
  else if r.aadharNumber = b.aadharNumber then "Aadhar number already exists"
  else if b.panNumber.any (fun v => r.panNumber = some v) then "PAN number already exists"
  else " already exists"

/-- All error exits of `createDriver`, in source order. Note: unlike every
other create/update path, no input is sanitized here — the raw body values
are validated, checked for duplicates, and inserted. -/
def createDriverErr (env : Env) (udb : List UserRow) (ddb : List DriverRow)
    (b : CreateDriverReq) : Option (Nat × String) :=
  firstSome [
    reqStr b.user_uuid "user_uuid",
    reqStr b.licenseNumber "licenseNumber",
    reqStr b.licenseExpiryDate "licenseExpiryDate",
    reqStr b.licenseImageUrl "licenseImageUrl",
    reqStr b.aadharNumber "aadharNumber",
    reqStr b.aadharImageUrl "aadharImageUrl",
    reqStr b.emergencyContactName "emergencyContactName",
    reqStr b.emergencyContactPhone "emergencyContactPhone",
    chkIf (¬ validateLicenseNumber b.licenseNumber) 400
      "Invalid license number format",
    chkIf (¬ validateDateFormat b.licenseExpiryDate) 400
      "License expiry date must be in YYYY-MM-DD format",
    chkIf (¬ env.dateInFuture b.licenseExpiryDate) 400
      "License expiry date must be in the future",
    chkIf (¬ validateAadhar b.aadharNumber) 400
      "Aadhar number must be 12 digits",
    chkIf (¬ validatePhone b.emergencyContactPhone) 400
      "Invalid emergency contact phone number",
    chkTruthy b.panNumber (fun s => ¬ validatePAN s) "Invalid PAN number format",
    chkTruthy b.bankIfscCode (fun s => ¬ validateIFSC s) "Invalid IFSC code format",
    chkTruthy b.upiId (fun s => ¬ validateUPI s) "Invalid UPI ID format",
    chkIf (udb.find? (fun r => r.uuid = b.user_uuid)).isNone 404 "User not found",
    chkIf (ddb.find? (fun r => r.user_uuid = b.user_uuid)).isSome 409
      "Driver profile already exists for this user",
    (match ddb.find? (drvCreateDupPred b) with
     | some r => some (409, drvCreateConflictMsg b r)
     | none => none)
  ]

/-- driver.ts `createDriver`: required/format checks on the raw body, parent
user existence, one-profile-per-user and unique-identifier checks, then
insert with schema defaults. -/
def createDriver (env : Env) (udb : List UserRow) (ddb : List DriverRow)
    (b : CreateDriverReq) : Res (List DriverRow × DriverRow) :=
  match createDriverErr env udb ddb b with
  | some (c, m) => Res.err c m
  | none =>
    let row : DriverRow :=
      { id := nextId (ddb.map (fun r => r.id)),
        user_uuid := b.user_uuid,
        licenseNumber := b.licenseNumber,
        licenseExpiryDate := b.licenseExpiryDate,
        licenseImageUrl := b.licenseImageUrl,
        aadharNumber := b.aadharNumber,
        aadharImageUrl := b.aadharImageUrl,
        panNumber := orNull b.panNumber,
        panImageUrl := orNull b.panImageUrl,
        policeVerificationCertUrl := orNull b.policeVerificationCertUrl,
        backgroundCheckStatus := "pending",
        emergencyContactName := b.emergencyContactName,
        emergencyContactPhone := b.emergencyContactPhone,
        bankAccountNumber := orNull b.bankAccountNumber,
        bankIfscCode := orNull b.bankIfscCode,
        bankAccountHolderName := orNull b.bankAccountHolderName,
        upiId := orNull b.upiId,
        status := "pending",
        approvedAt := none,
        rejectedAt := none,
        rejectionReason := none,
        rating := 0,
        totalRides := 0,
        totalEarnings := 0,
        isOnline := false,
        lastOnlineAt := none,
        createdAt := env.now,
        updatedAt := env.now }
    Res.ok 201 (ddb ++ [row], row)

/-! ### Extraction lemmas for the check combinators -/

theorem firstSome_none_of_mem {α : Type} {l : List (Option α)}
    (h : firstSome l = none) {o : Option α} (mem : o ∈ l) : o = none :=
  firstSome_eq_none.mp h o mem

theorem chkIf_none {c : Bool} {k : Nat} {m : String} (h : chkIf c k m = none) :
    c = false := by
  cases c with
  | false => rfl
  | true => simp [chkIf] at h

theorem chkOpt_none {α : Type} {o : Option α} {bad : α → Bool} {m : String}
    (h : chkOpt o bad m = none) : ∀ v, o = some v → bad v = false := by
  intro v hv
  subst hv
  by_cases hb : bad v = true
  · simp [chkOpt, hb] at h
  · simpa using hb

theorem chkOptAt_none {α : Type} {k : Nat} {o : Option α} {bad : α → Bool} {m : String}
    (h : chkOptAt k o bad m = none) : ∀ v, o = some v → bad v = false := by
  intro v hv
  subst hv
  by_cases hb : bad v = true
  · simp [chkOptAt, hb] at h
  · simpa using hb

theorem chkTruthy_none {o : Option String} {bad : String → Bool} {m : String}
    (h : chkTruthy o bad m = none) : ∀ s, o = some s → s ≠ "" → bad s = false := by
  intro s hs hne
  subst hs
  by_cases hb : bad s = true
  · simp [chkTruthy, hne, hb] at h
  · simpa using hb

theorem chkNullable_none {o : Option (Option String)} {bad : String → Bool} {m : String}
    (h : chkNullable o bad m = none) : ∀ s, o = some (some s) → s ≠ "" → bad s = false := by
  intro s hs hne
  subst hs
  by_cases hb : bad s = true
  · simp [chkNullable, hne, hb] at h
  · simpa using hb

theorem chkDupBy_none {ρ : Type} {o : Option String} {db : List ρ}
    {taken : ρ → String → Bool} {k : Nat} {m : String}
    (h : chkDupBy o db taken k m = none) :
    ∀ v, o = some v → db.find? (fun r => taken r v) = none := by
  intro v hv
  subst hv
  cases hf : db.find? (fun r => taken r v) with
  | none => rfl
  | some r => simp [chkDupBy, hf] at h

theorem reqStr_none {v name : String} (h : reqStr v name = none) : v ≠ "" := by
  intro he
  simp [reqStr, he] at h

theorem reqSome_none {α : Type} {o : Option α} {name : String}
    (h : reqSome o name = none) : o.isSome = true := by
  cases o with
  | none => simp [reqSome] at h
  | some v => rfl

/-- Updating the found row through an `UPDATE … WHERE p` modelled as a map:
the lookup afterwards finds the updated row, provided the update preserves
the predicate. -/
theorem find?_map_ite {ρ : Type} (q : ρ → Prop) [DecidablePred q] (f : ρ → ρ)
    (hp : ∀ r, q r → q (f r)) :
    ∀ (db : List ρ) (old : ρ), db.find? (fun r => q r) = some old →
      (db.map (fun r => if q r then f r else r)).find? (fun r => q r) = some (f old) := by
  intro db
  induction db with
  | nil => intro old h; simp [List.find?] at h
  | cons r rest ih =>
    intro old h
    by_cases hr : q r
    · rw [List.find?_cons_of_pos _ (by simpa using hr)] at h
      cases h
      simp only [List.map_cons, if_pos hr]
      exact List.find?_cons_of_pos _ (by simpa using hp _ hr)
    · rw [List.find?_cons_of_neg _ (by simpa using hr)] at h
      simp only [List.map_cons, if_neg hr]
      rw [List.find?_cons_of_neg _ (by simpa using hr)]
      exact ih _ h

/-- A lookup over an appended singleton hits the new row when nothing in the
prefix matches. -/
theorem find?_append_right {ρ : Type} (p : ρ → Bool) :
    ∀ (l1 l2 : List ρ), (∀ x ∈ l1, p x = false) →
      (l1 ++ l2).find? p = l2.find? p := by
  intro l1 l2 h
  induction l1 with
  | nil => rfl
  | cons x rest ih =>
    have hx : p x = false := h x (List.mem_cons_self x rest)
    simp only [List.cons_append]
    rw [List.find?_cons_of_neg _ (by simp [hx])]
    exact ih (fun y hy => h y (List.mem_cons_of_mem x hy))

/-! ### Shared sample data for witnesses and counterexamples -/

/-- A concrete oracle environment (any fixed environment works for every
claim below; none of the claims depends on how the oracles decide). -/
def env0 : Env :=
  { now := "2025-06-01T12:00:00.000Z",
    currentYear := 2025,
    dateInFuture := fun _ => true,
    ageOk := fun _ => true,
    urlOk := fun _ => true,
    vehImgsOk := fun _ => true }

def user0 : UserRow :=
  { id := 1, email := "a@b.com", phoneNumber := "9876543210",
    firstName := "Asha", lastName := "Rao", profileImage := none,
    dateOfBirth := none, gender := none, userType := "customer",
    isActive := true, isVerified := false, uuid := "u-1",
    createdAt := "2025-01-01T00:00:00.000Z", updatedAt := "2025-01-01T00:00:00.000Z" }

/-- A stored driver who is currently online (`isOnline = true`). -/
def driver0 : DriverRow :=
  { id := 1, user_uuid := "u-1", licenseNumber := "DL1234567890",
    licenseExpiryDate := "2030-01-01", licenseImageUrl := "https://img.example.com/l.png",
    aadharNumber := "123456789012", aadharImageUrl := "https://img.example.com/a.png",
    panNumber := some "ABCDE1234F", panImageUrl := none,
    policeVerificationCertUrl := none, backgroundCheckStatus := "pending",
    emergencyContactName := "John Doe", emergencyContactPhone := "9876543210",
    bankAccountNumber := none, bankIfscCode := none, bankAccountHolderName := none,
    upiId := none, status := "pending", approvedAt := none, rejectedAt := none,
    rejectionReason := none, rating := 0, totalRides := 0, totalEarnings := 0,
    isOnline := true, lastOnlineAt := none,
    createdAt := "2025-01-01T00:00:00.000Z", updatedAt := "2025-01-01T00:00:00.000Z" }

def vehicle0 : VehicleRow :=
  { id := 1, driverId := 1, vehicleType := "car", registrationNumber := "KA01AB1234",
    make := "Toyota", model := "Innova", year := 2020, color := "White", capacity := 7,
    rcImageUrl := "https://img.example.com/rc.png",
    insuranceCertUrl := "https://img.example.com/ins.png",
    insuranceExpiryDate := "2026-01-01", pucCertUrl := none, pucExpiryDate := none,
    permitImageUrl := none, permitExpiryDate := none, vehicleImageUrls := none,
    isActive := true, verificationStatus := "pending",
    createdAt := "2025-01-01T00:00:00.000Z", updatedAt := "2025-01-01T00:00:00.000Z" }

def school0 : SchoolRow :=
  { id := 1, name := "Delhi Public School", code := "DPS_001",
    address := "12 Ring Road", latitude := 28, longitude := 77,
    city := "Delhi", state := "Delhi", pincode := "110001",
    phone := none, email := none, principalName := none,
    schoolType := "private", boardType := none, startTime := "08:00",
    endTime := "14:00", workingDays := ["monday", "tuesday"], holidays := none,
    isActive := true,
    createdAt := "2025-01-01T00:00:00.000Z", updatedAt := "2025-01-01T00:00:00.000Z" }

/-! ### C1: driver soft delete -/

/-- C1 (counterexample): soft-deleting the online driver `driver0` keeps the
row and sets status to `inactive`, but the stored row's `isOnline` flag is
still `true` afterwards — the handler never writes `isOnline`, so the claim
that the row afterwards has `isOnline = false` is false at this input. -/
theorem C1_counterexample :
    deleteDriver [driver0] "u-1" "soft" "T1" =
      Res.ok 200 [{ driver0 with status := "inactive", updatedAt := "T1" }] ∧
    ({ driver0 with status := "inactive", updatedAt := "T1" } : DriverRow).isOnline = true := by
  constructor
  · rfl
  · rfl

/-- C1 (amended): soft-deleting an existing driver keeps the row and sets
its lifecycle status to `inactive` (refreshing `updatedAt`); every other
field — in particular `isOnline` — keeps its stored value. -/
theorem C1_soft_delete_keeps_row_inactive (db : List DriverRow) (uuid now : String)
    (old : DriverRow) (hu : uuid ≠ "")
    (hfind : db.find? (fun r => r.user_uuid = uuid) = some old) :
    ∃ db2, deleteDriver db uuid "soft" now = Res.ok 200 db2 ∧
      db2.find? (fun r => r.user_uuid = uuid) =
        some { old with status := "inactive", updatedAt := now } := by
  have hm : toLowerJS "soft" = "soft" := rfl
  refine ⟨db.map (fun r =>
    if r.user_uuid = uuid then { r with status := "inactive", updatedAt := now } else r),
    ?_, ?_⟩
  · simp only [deleteDriver, hm, hfind]
    simp [hu]
  · exact find?_map_ite (fun r => r.user_uuid = uuid)
      (fun r => { r with status := "inactive", updatedAt := now })
      (fun r hr => hr) db old hfind

/-- C1 witness: the amended theorem applied to the one-row database holding
the online driver. -/
theorem C1_witness :
    ∃ db2, deleteDriver [driver0] "u-1" "soft" "T1" = Res.ok 200 db2 ∧
      db2.find? (fun r => r.user_uuid = "u-1") =
        some { driver0 with status := "inactive", updatedAt := "T1" } :=
  C1_soft_delete_keeps_row_inactive [driver0] "u-1" "T1" driver0 (by decide) (by decide)

/-! ### C6: delete-type path segment -/

/-- C6 (counterexample): `DELETE /driver/delete/u-1/SOFT` — the segment is
`"SOFT"`, not literally `soft` or `hard` — is not rejected with a 400: the
handler lowercases the segment first and performs the soft delete. -/
theorem C6_counterexample :
    deleteDriver [driver0] "u-1" "SOFT" "T1" =
      Res.ok 200 [{ driver0 with status := "inactive", updatedAt := "T1" }] := by
  rfl

/-- C6 (amended): for user, vehicle and school deletes the segment must
literally be `soft` or `hard` — any other non-empty value yields a 400 and
leaves the table untouched, and an empty (falsy) segment behaves exactly as
`soft`; for driver deletes the segment is lowercased first, so exactly the
case variants of `soft`/`hard` are accepted (a lowercased value outside the
pair is a 400 with no write, and a value lowercasing to `soft`
soft-deletes). -/
theorem C6_delete_type_validation :
    (∀ (db : List UserRow) (uuid dt now : String), uuid ≠ "" → dt ≠ "" →
      ¬ (dt = "soft" ∨ dt = "hard") →
      deleteUser db uuid dt now =
        Res.err 400 "Invalid delete type. It must be either \"soft\" or \"hard\"" ∧
      dbAfterP db (deleteUser db uuid dt now) = db) ∧
    (∀ (db : List DriverRow) (uuid m now : String), uuid ≠ "" →
      ¬ (toLowerJS m = "soft" ∨ toLowerJS m = "hard") →
      deleteDriver db uuid m now =
        Res.err 400 "Invalid delete mode. Must be \"soft\" or \"hard\"." ∧
      dbAfter db (deleteDriver db uuid m now) = db) ∧
    (∀ (db : List DriverRow) (uuid m now : String) (old : DriverRow), uuid ≠ "" →
      toLowerJS m = "soft" →
      db.find? (fun r => r.user_uuid = uuid) = some old →
      ∃ db2, deleteDriver db uuid m now = Res.ok 200 db2) ∧
    (∀ (vdb : List VehicleRow) (idS dt now : String) (idZ : Int),
      parseIntJS idS = JNum.num idZ → dt ≠ "" →
      ¬ (dt = "soft" ∨ dt = "hard") →
      deleteVehicle vdb idS dt now =
        Res.err 400 "Invalid delete type. It must be either \"soft\" or \"hard\"" ∧
      dbAfterP vdb (deleteVehicle vdb idS dt now) = vdb) ∧
    (∀ (sdb : List SchoolRow) (id : Nat) (dt now : String), dt ≠ "" →
      ¬ (dt = "soft" ∨ dt = "hard") →
      deleteSchool sdb id dt now =
        Res.err 400 "Invalid delete type. It must be either \"soft\" or \"hard\"" ∧
      dbAfterP sdb (deleteSchool sdb id dt now) = sdb) ∧
    (∀ (db : List UserRow) (uuid now : String),
      deleteUser db uuid "" now = deleteUser db uuid "soft" now) ∧
    (∀ (vdb : List VehicleRow) (idS now : String),
      deleteVehicle vdb idS "" now = deleteVehicle vdb idS "soft" now) ∧
    (∀ (sdb : List SchoolRow) (id : Nat) (now : String),
      deleteSchool sdb id "" now = deleteSchool sdb id "soft" now) := by
  refine ⟨?_, ?_, ?_, ?_, ?_, ?_, ?_, ?_⟩
  · intro db uuid dt now hu hdt hbad
    have : (if dt = "" then "soft" else dt) = dt := by simp [hdt]
    constructor
    · simp only [deleteUser, this]
      simp [hu, hbad]
    · simp only [deleteUser, this, dbAfterP]
      simp [hu, hbad, dbAfterP]
  · intro db uuid m now hu hbad
    constructor
    · simp only [deleteDriver]
      simp [hu, hbad]
    · simp only [deleteDriver, dbAfter]
      simp [hu, hbad, dbAfter]
  · intro db uuid m now old hu hm hfind
    refine ⟨db.map (fun r =>
      if r.user_uuid = uuid then { r with status := "inactive", updatedAt := now } else r),
      ?_⟩
    simp only [deleteDriver, hm, hfind]
    simp [hu]
  · intro vdb idS dt now idZ hparse hdt hbad
    have hd : (if dt = "" then "soft" else dt) = dt := by simp [hdt]
    constructor
    · simp only [deleteVehicle, hd, hparse]
      simp [hbad]
    · simp only [deleteVehicle, hd, hparse, dbAfterP]
      simp [hbad, dbAfterP]
  · intro sdb id dt now hdt hbad
    have hd : (if dt = "" then "soft" else dt) = dt := by simp [hdt]
    constructor
    · simp only [deleteSchool, hd]
      simp [hbad]
    · simp only [deleteSchool, hd, dbAfterP]
      simp [hbad, dbAfterP]
  · intro db uuid now
    rfl
  · intro vdb idS now
    rfl
  · intro sdb id now
    rfl

/-- C6 witness: the amended theorem applied at `bogus` segments for user,
vehicle and school deletes, `SOFTLY` and `SOFT` for a driver delete, and
the empty-segment-equals-`soft` default for user, vehicle and school. -/
theorem C6_witness :
    (deleteUser [user0] "u-1" "bogus" "T1" =
      Res.err 400 "Invalid delete type. It must be either \"soft\" or \"hard\"" ∧
     dbAfterP [user0] (deleteUser [user0] "u-1" "bogus" "T1") = [user0]) ∧
    (deleteDriver [driver0] "u-1" "SOFTLY" "T1" =
      Res.err 400 "Invalid delete mode. Must be \"soft\" or \"hard\"." ∧
     dbAfter [driver0] (deleteDriver [driver0] "u-1" "SOFTLY" "T1") = [driver0]) ∧
    (∃ db2, deleteDriver [driver0] "u-1" "SOFT" "T1" = Res.ok 200 db2) ∧
    (deleteVehicle [vehicle0] "1" "bogus" "T1" =
      Res.err 400 "Invalid delete type. It must be either \"soft\" or \"hard\"" ∧
     dbAfterP [vehicle0] (deleteVehicle [vehicle0] "1" "bogus" "T1") = [vehicle0]) ∧
    (deleteSchool [school0] 1 "bogus" "T1" =
      Res.err 400 "Invalid delete type. It must be either \"soft\" or \"hard\"" ∧
     dbAfterP [school0] (deleteSchool [school0] 1 "bogus" "T1") = [school0]) ∧
    deleteUser [user0] "u-1" "" "T1" = deleteUser [user0] "u-1" "soft" "T1" ∧
    deleteVehicle [vehicle0] "1" "" "T1" = deleteVehicle [vehicle0] "1" "soft" "T1" ∧
    deleteSchool [school0] 1 "" "T1" = deleteSchool [school0] 1 "soft" "T1" :=
  ⟨C6_delete_type_validation.1 [user0] "u-1" "bogus" "T1" (by decide) (by decide) (by decide),
   C6_delete_type_validation.2.1 [driver0] "u-1" "SOFTLY" "T1" (by decide) (by decide),
   C6_delete_type_validation.2.2.1 [driver0] "u-1" "SOFT" "T1" driver0 (by decide) (by decide)
     (by decide),
   C6_delete_type_validation.2.2.2.1 [vehicle0] "1" "bogus" "T1" 1 (by decide) (by decide)
     (by decide),
   C6_delete_type_validation.2.2.2.2.1 [school0] 1 "bogus" "T1" (by decide) (by decide),
   C6_delete_type_validation.2.2.2.2.2.1 [user0] "u-1" "T1",
   C6_delete_type_validation.2.2.2.2.2.2.1 [vehicle0] "1" "T1",
   C6_delete_type_validation.2.2.2.2.2.2.2 [school0] 1 "T1"⟩

/-! ### C3: pagination -/

/-- C3 (counterexample): with `?page=abc` the parsed page is NaN
(`parseInt('abc')` is NaN and `Math.max(1, NaN)` is NaN), so the returned
pagination block's `page` is not a number at all and the claimed bound
`page ≥ 1` fails. -/
theorem C3_counterexample :
    (paginationOf (some "abc") none 25).page = JNum.nan ∧
    jGe (paginationOf (some "abc") none 25).page (JNum.num 1) = false := by
  constructor
  · rfl
  · rfl

/-- C3 (amended): whenever `parseInt` yields a number for the (defaulted)
page and limit parameters — in particular when they are absent — the
pagination block satisfies the claim: `page = max(1, p) ≥ 1`,
`1 ≤ limit = min(100, max(1, l)) ≤ 100`, `totalPages` is the ceiling of
`total / limit` (characterised by `limit·(totalPages−1) < total ≤
limit·totalPages`), `hasNext = page < totalPages`, `hasPrev = page > 1`,
and the rows are sliced at offset `(page−1)·limit` with length `limit`.
When a parameter fails to parse, NaN propagates instead (see the
counterexample). -/
theorem C3_pagination {α : Type} (rows : List α) (pageS limitS : Option String)
    (total : Nat) (p l : Int)
    (hp : parseIntJS (jsOr pageS "1") = JNum.num p)
    (hl : parseIntJS (jsOr limitS "10") = JNum.num l) :
    ∃ P L T : Int, P = max 1 p ∧ L = min 100 (max 1 l) ∧
      (paginationOf pageS limitS total).page = JNum.num P ∧ 1 ≤ P ∧
      (paginationOf pageS limitS total).limit = JNum.num L ∧ 1 ≤ L ∧ L ≤ 100 ∧
      (paginationOf pageS limitS total).total = total ∧
      (paginationOf pageS limitS total).totalPages = JNum.num T ∧
      L * (T - 1) < (total : Int) ∧ (total : Int) ≤ L * T ∧
      (paginationOf pageS limitS total).hasNext = decide (P < T) ∧
      (paginationOf pageS limitS total).hasPrev = decide (1 < P) ∧
      listData rows pageS limitS =
        some ((rows.drop ((P - 1) * L).toNat).take L.toNat) := by
  have hpage : pageOf pageS = JNum.num (max 1 p) := by
    simp [pageOf, hp]
  have hlim : limitOf limitS = JNum.num (min 100 (max 1 l)) := by
    simp [limitOf, hl]
  set L : Int := min 100 (max 1 l) with hLdef
  have hL1 : (1 : Int) ≤ L := by
    have h1 : (1 : Int) ≤ max 1 l := le_max_left 1 l
    omega
  have hL100 : L ≤ 100 := min_le_left 100 (max 1 l)
  set Lt : Nat := L.toNat with hLtdef
  have hLt1 : 1 ≤ Lt := by omega
  set t : Nat := (total + Lt - 1) / Lt with htdef
  have hdm := Nat.div_add_mod (total + Lt - 1) Lt
  have hmod := Nat.mod_lt (total + Lt - 1) (show 0 < Lt by omega)
  rw [← htdef] at hdm
  have hA : total ≤ Lt * t := by
    generalize hq : Lt * t = q at hdm
    omega
  have hB : Lt * t ≤ total + Lt - 1 := by
    generalize hq : Lt * t = q at hdm
    omega
  have hLcast : ((Lt : Int)) = L := by omega
  have hA2 : (total : Int) ≤ L * t := by
    rw [← hLcast]
    exact_mod_cast hA
  have hB2 : L * (t : Int) ≤ (total : Int) + L - 1 := by
    rw [← hLcast]
    calc (Lt : Int) * t = ((Lt * t : Nat) : Int) := by push_cast; ring
    _ ≤ (((total + Lt - 1) : Nat) : Int) := by exact_mod_cast hB
    _ = (total : Int) + Lt - 1 := by omega
  have hG1 : L * ((t : Int) - 1) < (total : Int) := by
    have hexp : L * ((t : Int) - 1) = L * t - L := by ring
    rw [hexp]
    linarith
  have htp : totalPagesOf total (limitOf limitS) = JNum.num (t : Int) := by
    rw [hlim]
    simp only [totalPagesOf]
    rw [if_pos (by omega : (0 : Int) < L)]
    rw [← hLtdef, ← htdef]
    norm_cast
  refine ⟨max 1 p, L, (t : Int), rfl, hLdef, ?_, le_max_left 1 p, ?_, hL1, hL100, rfl,
    ?_, hG1, hA2, ?_, ?_, ?_⟩
  · simp [paginationOf, hpage]
  · simp [paginationOf, hlim]
  · simp only [paginationOf]
    exact htp
  · simp only [paginationOf]
    rw [hpage, htp]
    rfl
  · simp only [paginationOf]
    rw [hpage]
    rfl
  · simp only [listData]
    rw [hpage, hlim]

/-- C3 witness: 25 rows with `?page=3` and the default limit 10 — the
amended theorem instantiated: page 3, limit 10, totalPages 3, `hasNext`
false, `hasPrev` true, and the slice drops 20 rows and takes 10. -/
theorem C3_witness :
    ∃ P L T : Int, P = max 1 3 ∧ L = min 100 (max 1 10) ∧
      (paginationOf (some "3") none 25).page = JNum.num P ∧ 1 ≤ P ∧
      (paginationOf (some "3") none 25).limit = JNum.num L ∧ 1 ≤ L ∧ L ≤ 100 ∧
      (paginationOf (some "3") none 25).total = 25 ∧
      (paginationOf (some "3") none 25).totalPages = JNum.num T ∧
      L * (T - 1) < (25 : Int) ∧ (25 : Int) ≤ L * T ∧
      (paginationOf (some "3") none 25).hasNext = decide (P < T) ∧
      (paginationOf (some "3") none 25).hasPrev = decide (1 < P) ∧
      listData (List.range 25) (some "3") none =
        some (((List.range 25).drop ((P - 1) * L).toNat).take L.toNat) :=
  C3_pagination (List.range 25) (some "3") none 25 3 10 (by decide) (by decide)

/-! ### Success-shape lemmas for the update and create handlers -/

theorem updateDriver_ok {env : Env} {db : List DriverRow} {uuid : String}
    {b : UpdateDriverReq} {db2 : List DriverRow} {row2 : DriverRow}
    (h : updateDriver env db uuid b = Res.ok 200 (db2, row2)) :
    ∃ old, db.find? (fun r => r.user_uuid = uuid) = some old ∧
      driverUpdErr env db uuid b = none ∧
      row2 = applyDriverUpdate old (driverDelta (driverUpdData b env.now) old b env.now) ∧
      db2 = db.map (fun r => if r.user_uuid = uuid then
        applyDriverUpdate r (driverDelta (driverUpdData b env.now) old b env.now) else r) := by
  unfold updateDriver at h
  split at h
  · exact Res.noConfusion h
  · split at h
    · exact Res.noConfusion h
    · rename_i old hfind
      split at h
      · exact Res.noConfusion h
      · rename_i herr
        simp only [Res.ok.injEq, Prod.mk.injEq, true_and] at h
        exact ⟨old, hfind, herr, h.2.symm, h.1.symm⟩

theorem updateUser_ok {env : Env} {db : List UserRow} {uuid : String}
    {b : UpdateUserReq} {db2 : List UserRow} {row2 : UserRow}
    (h : updateUser env db uuid b = Res.ok 200 (db2, row2)) :
    ∃ old, db.find? (fun r => r.uuid = uuid) = some old ∧
      userUpdErr env db uuid b = none ∧
      row2 = applyUserUpdate old (userUpdData b env.now) ∧
      db2 = db.map (fun r => if r.uuid = uuid then
        applyUserUpdate r (userUpdData b env.now) else r) := by
  unfold updateUser at h
  split at h
  · exact Res.noConfusion h
  · split at h
    · exact Res.noConfusion h
    · rename_i old hfind
      split at h
      · exact Res.noConfusion h
      · rename_i herr
        simp only [Res.ok.injEq, Prod.mk.injEq, true_and] at h
        exact ⟨old, hfind, herr, h.2.symm, h.1.symm⟩

theorem updateVehicle_ok {env : Env} {drvDb : List DriverRow} {vdb : List VehicleRow}
    {idS : String} {b : UpdateVehicleReq} {db2 : List VehicleRow} {row2 : VehicleRow}
    (h : updateVehicle env drvDb vdb idS b = Res.ok 200 (db2, row2)) :
    ∃ idZ old, parseIntJS idS = JNum.num idZ ∧
      vdb.find? (fun r => (r.id : Int) = idZ) = some old ∧
      vehicleUpdErr env drvDb vdb old.id old b = none ∧
      row2 = applyVehicleUpdate old (vehicleUpdData b env.now) ∧
      db2 = vdb.map (fun r => if (r.id : Int) = idZ then
        applyVehicleUpdate r (vehicleUpdData b env.now) else r) := by
  unfold updateVehicle at h
  split at h
  · exact Res.noConfusion h
  · rename_i idZ hparse
    split at h
    · exact Res.noConfusion h
    · rename_i old hfind
      split at h
      · exact Res.noConfusion h
      · rename_i herr
        simp only [Res.ok.injEq, Prod.mk.injEq, true_and] at h
        exact ⟨idZ, old, hparse, hfind, herr, h.2.symm, h.1.symm⟩

theorem updateSchool_ok {env : Env} {sdb : List SchoolRow} {id : Nat}
    {b : UpdateSchoolReq} {db2 : List SchoolRow} {row2 : SchoolRow}
    (h : updateSchool env sdb id b = Res.ok 200 (db2, row2)) :
    ∃ old, sdb.find? (fun r => r.id = id) = some old ∧
      schoolUpdErr sdb id old b = none ∧
      row2 = applySchoolUpdate old (schoolUpdData b env.now) ∧
      db2 = sdb.map (fun r => if r.id = id then
        applySchoolUpdate r (schoolUpdData b env.now) else r) := by
  unfold updateSchool at h
  split at h
  · exact Res.noConfusion h
  · rename_i old hfind
    split at h
    · exact Res.noConfusion h
    · rename_i herr
      simp only [Res.ok.injEq, Prod.mk.injEq, true_and] at h
      exact ⟨old, hfind, herr, h.2.symm, h.1.symm⟩

theorem createSchool_ok {env : Env} {sdb : List SchoolRow} {b : CreateSchoolReq}
    {db2 : List SchoolRow} {row2 : SchoolRow}
    (h : createSchool env sdb b = Res.ok 201 (db2, row2)) :
    createSchoolErr sdb b = none ∧ db2 = sdb ++ [row2] ∧
      row2.code = sanitizeInput (toUpperJS (b.code.getD "")) ∧
      row2.latitude = b.latitude.getD 0 ∧ row2.longitude = b.longitude.getD 0 ∧
      row2.email = orNull (b.email.map (fun s => sanitizeInput (toLowerJS s))) := by
  unfold createSchool at h
  split at h
  · exact Res.noConfusion h
  · rename_i herr
    simp only [Res.ok.injEq, Prod.mk.injEq, true_and] at h
    obtain ⟨hdb, hrow⟩ := h
    subst hrow
    exact ⟨herr, hdb.symm, rfl, rfl, rfl, rfl⟩

theorem createVehicle_ok {env : Env} {drvDb : List DriverRow} {vdb : List VehicleRow}
    {b : CreateVehicleReq} {db2 : List VehicleRow} {row2 : VehicleRow}
    (h : createVehicle env drvDb vdb b = Res.ok 201 (db2, row2)) :
    createVehicleErr env drvDb vdb b = none ∧ db2 = vdb ++ [row2] ∧
      row2.capacity = b.capacity.getD 0 ∧
      row2.registrationNumber = sanitizeInput (toUpperJS b.registrationNumber) := by
  unfold createVehicle at h
  split at h
  · exact Res.noConfusion h
  · rename_i herr
    simp only [Res.ok.injEq, Prod.mk.injEq, true_and] at h
    obtain ⟨hdb, hrow⟩ := h
    subst hrow
    exact ⟨herr, hdb.symm, rfl, rfl⟩

theorem createDriver_ok {env : Env} {udb : List UserRow} {ddb : List DriverRow}
    {b : CreateDriverReq} {db2 : List DriverRow} {row2 : DriverRow}
    (h : createDriver env udb ddb b = Res.ok 201 (db2, row2)) :
    createDriverErr env udb ddb b = none ∧ db2 = ddb ++ [row2] ∧
      row2.licenseNumber = b.licenseNumber ∧
      row2.aadharNumber = b.aadharNumber ∧
      row2.panNumber = orNull b.panNumber := by
  unfold createDriver at h
  split at h
  · exact Res.noConfusion h
  · rename_i herr
    simp only [Res.ok.injEq, Prod.mk.injEq, true_and] at h
    obtain ⟨hdb, hrow⟩ := h
    subst hrow
    exact ⟨herr, hdb.symm, rfl, rfl, rfl⟩

/-! ### C2: driver status transition side effects -/

/-- C2: on a successful driver update, transitioning into `approved` from a
different stored status stamps `approvedAt` with the current time and
clears `rejectedAt` and `rejectionReason` (even when the body also supplies
a `rejectionReason` — the delta assignment overrides it); transitioning
into `rejected` from a different stored status stamps `rejectedAt` and
clears `approvedAt`; submitting the stored status leaves `approvedAt` and
`rejectedAt` untouched and `rejectionReason` changed only by an explicit
body field, not by the delta mechanism. -/
theorem C2_status_delta_effects (env : Env) (db : List DriverRow) (uuid : String)
    (b : UpdateDriverReq) (old : DriverRow) (db2 : List DriverRow) (row2 : DriverRow)
    (hfind : db.find? (fun r => r.user_uuid = uuid) = some old)
    (hok : updateDriver env db uuid b = Res.ok 200 (db2, row2)) :
    (b.status = some "approved" → old.status ≠ "approved" →
      row2.approvedAt = some env.now ∧ row2.rejectedAt = none ∧
      row2.rejectionReason = none) ∧
    (b.status = some "rejected" → old.status ≠ "rejected" →
      row2.rejectedAt = some env.now ∧ row2.approvedAt = none) ∧
    (∀ s, b.status = some s → old.status = s →
      row2.approvedAt = old.approvedAt ∧ row2.rejectedAt = old.rejectedAt ∧
      row2.rejectionReason = b.rejectionReason.getD old.rejectionReason) := by
  obtain ⟨old2, hfind2, herr, hrow, hdb⟩ := updateDriver_ok hok
  rw [hfind] at hfind2
  injection hfind2 with hsame
  subst hsame
  subst hrow
  refine ⟨?_, ?_, ?_⟩
  · intro hs hold
    have hcond : b.status = some "approved" ∧ old.status ≠ "approved" := ⟨hs, hold⟩
    simp only [driverDelta, if_pos hcond]
    cases hio : b.isOnline with
    | none => simp [applyDriverUpdate]
    | some v =>
      by_cases hv : v ≠ old.isOnline
      · simp [applyDriverUpdate, hv]
      · simp [applyDriverUpdate, hv]
  · intro hs hold
    have hcond1 : ¬ (b.status = some "approved" ∧ old.status ≠ "approved") := by
      rintro ⟨h1, -⟩
      rw [hs] at h1
      exact absurd (Option.some.inj h1) (by decide)
    have hcond2 : b.status = some "rejected" ∧ old.status ≠ "rejected" := ⟨hs, hold⟩
    simp only [driverDelta, if_neg hcond1, if_pos hcond2]
    cases hio : b.isOnline with
    | none => simp [applyDriverUpdate]
    | some v =>
      by_cases hv : v ≠ old.isOnline
      · simp [applyDriverUpdate, hv]
      · simp [applyDriverUpdate, hv]
  · intro s hs hold
    have hcond1 : ¬ (b.status = some "approved" ∧ old.status ≠ "approved") := by
      rintro ⟨h1, h2⟩
      rw [hs] at h1
      exact h2 (hold.trans (Option.some.inj h1))
    have hcond2 : ¬ (b.status = some "rejected" ∧ old.status ≠ "rejected") := by
      rintro ⟨h1, h2⟩
      rw [hs] at h1
      exact h2 (hold.trans (Option.some.inj h1))
    simp only [driverDelta, if_neg hcond1, if_neg hcond2]
    cases hio : b.isOnline with
    | none => simp [applyDriverUpdate, driverUpdData]
    | some v =>
      by_cases hv : v ≠ old.isOnline
      · simp [applyDriverUpdate, driverUpdData, hv]
      · simp [applyDriverUpdate, driverUpdData, hv]

/-- The row produced by approving `driver0` at `env0.now`. -/
def driver0approved : DriverRow :=
  { driver0 with status := "approved", approvedAt := some env0.now, updatedAt := env0.now }

/-- C2 witness: PATCH `{status: "approved"}` on the pending driver
`driver0` stamps `approvedAt` and clears `rejectedAt`/`rejectionReason`. -/
theorem C2_witness :
    driver0approved.approvedAt = some env0.now ∧
    driver0approved.rejectedAt = none ∧
    driver0approved.rejectionReason = none :=
  (C2_status_delta_effects env0 [driver0] "u-1" { status := some "approved" } driver0
      [driver0approved] driver0approved (by decide) (by decide)).1 rfl (by decide)

/-! ### Character facts about the ASCII uppercase map -/

theorem char_le_iff_toNat {a b : Char} : a ≤ b ↔ a.toNat ≤ b.toNat := by
  rw [Char.le_def, UInt32.le_def, BitVec.le_def]
  exact Iff.rfl

theorem char_eq_iff_toNat {a b : Char} : a = b ↔ a.toNat = b.toNat := by
  constructor
  · exact congrArg Char.toNat
  · intro h
    exact Char.ext (UInt32.toNat.inj h)

theorem toNat_ofNat_valid {k : Nat} (h : k < 55296) : (Char.ofNat k).toNat = k := by
  rw [Char.ofNat, dif_pos (Or.inl h)]
  simp [Char.ofNatAux, Char.toNat, UInt32.toNat]

theorem upChar_toNat_of_lower {c : Char} (h1 : 'a' ≤ c) (h2 : c ≤ 'z') :
    (upChar c).toNat = c.toNat - 32 := by
  have hn2 : c.toNat ≤ 122 := char_le_iff_toNat.mp h2
  unfold upChar
  rw [if_pos ⟨h1, h2⟩]
  exact toNat_ofNat_valid (by omega)

theorem upChar_eq_of_not_lower {c : Char} (h : ¬ ('a' ≤ c ∧ c ≤ 'z')) : upChar c = c := by
  unfold upChar
  exact if_neg h

theorem upChar_idem (c : Char) : upChar (upChar c) = upChar c := by
  by_cases h : 'a' ≤ c ∧ c ≤ 'z'
  · have ht := upChar_toNat_of_lower h.1 h.2
    have hc1 : 97 ≤ c.toNat := char_le_iff_toNat.mp h.1
    apply upChar_eq_of_not_lower
    rintro ⟨h1, -⟩
    have hle := char_le_iff_toNat.mp h1
    rw [ht] at hle
    have ha : ('a' : Char).toNat = 97 := rfl
    rw [ha] at hle
    have hc2 : c.toNat ≤ 122 := char_le_iff_toNat.mp h.2
    omega
  · rw [upChar_eq_of_not_lower h]
    exact upChar_eq_of_not_lower h

theorem isJsWs_iff_toNat (c : Char) :
    isJsWs c = true ↔ (c.toNat = 32 ∨ c.toNat = 9 ∨ c.toNat = 13 ∨ c.toNat = 10) := by
  simp only [isJsWs, Char.isWhitespace, Bool.or_eq_true, decide_eq_true_eq]
  rw [char_eq_iff_toNat, char_eq_iff_toNat, char_eq_iff_toNat, char_eq_iff_toNat]
  have h1 : (' ' : Char).toNat = 32 := rfl
  have h2 : ('\t' : Char).toNat = 9 := rfl
  have h3 : ('\x0d' : Char).toNat = 13 := rfl
  have h4 : ('\n' : Char).toNat = 10 := rfl
  rw [h1, h2, h3, h4]
  tauto

theorem isJsWs_upChar (c : Char) : isJsWs (upChar c) = isJsWs c := by
  by_cases h : 'a' ≤ c ∧ c ≤ 'z'
  · have ht := upChar_toNat_of_lower h.1 h.2
    have hc1 : 97 ≤ c.toNat := char_le_iff_toNat.mp h.1
    have hc2 : c.toNat ≤ 122 := char_le_iff_toNat.mp h.2
    have hl : isJsWs (upChar c) = false := by
      rw [← Bool.not_eq_true, isJsWs_iff_toNat, ht]
      omega
    have hr : isJsWs c = false := by
      rw [← Bool.not_eq_true, isJsWs_iff_toNat]
      omega
    rw [hl, hr]
  · rw [upChar_eq_of_not_lower h]

theorem trimChars_map_upChar (cs : List Char) :
    trimChars (cs.map upChar) = (trimChars cs).map upChar := by
  unfold trimChars
  have hcomp : (isJsWs ∘ upChar) = isJsWs := funext isJsWs_upChar
  rw [List.dropWhile_map, hcomp, ← List.map_reverse, List.dropWhile_map, hcomp,
    ← List.map_reverse]

theorem collapseWs_map_upChar :
    ∀ (cs : List Char) (f : Bool),
      collapseWs (cs.map upChar) f = (collapseWs cs f).map upChar
  | [], _ => rfl
  | c :: cs, f => by
    simp only [List.map_cons, collapseWs, isJsWs_upChar]
    by_cases h : isJsWs c = true
    · rw [if_pos h, if_pos h]
      cases f
      · simp only [List.map_cons, collapseWs_map_upChar cs true]
        rfl
      · exact collapseWs_map_upChar cs true
    · rw [if_neg h, if_neg h]
      simp only [List.map_cons, collapseWs_map_upChar cs false]

theorem toUpperJS_sanitizeInput (s : String) :
    toUpperJS (sanitizeInput s) = sanitizeInput (toUpperJS s) := by
  show String.mk _ = String.mk _
  simp only [toUpperJS, sanitizeInput, trimChars_map_upChar, collapseWs_map_upChar]

theorem toUpperJS_toUpperJS (s : String) : toUpperJS (toUpperJS s) = toUpperJS s := by
  show String.mk _ = String.mk _
  simp only [toUpperJS, List.map_map]
  rw [show (upChar ∘ upChar) = upChar from funext upChar_idem]

/-- The stored school code is stable under uppercasing: it is the sanitized
uppercase of the submitted code. -/
theorem toUpperJS_code_stable (x : String) :
    toUpperJS (sanitizeInput (toUpperJS x)) = sanitizeInput (toUpperJS x) := by
  rw [toUpperJS_sanitizeInput, toUpperJS_toUpperJS]

/-! ### C10: school code lookup round trip -/

/-- A create-school body submitting the code in lowercase. -/
def schoolBody10 : CreateSchoolReq :=
  { name := some "Delhi Public School", code := some "dps_001",
    address := some "12 Ring Road", latitude := some 28, longitude := some 77,
    city := some "Delhi", state := some "Delhi", pincode := some "110001",
    schoolType := some "private", startTime := some "08:00", endTime := some "14:00",
    workingDays := some ["monday"] }

/-- The row `createSchool env0 [] schoolBody10` inserts. -/
def schoolRow10 : SchoolRow :=
  { id := 1, name := "Delhi Public School", code := "DPS_001",
    address := "12 Ring Road", latitude := 28, longitude := 77,
    city := "Delhi", state := "Delhi", pincode := "110001",
    phone := none, email := none, principalName := none,
    schoolType := "private", boardType := none, startTime := "08:00",
    endTime := "14:00", workingDays := ["monday"], holidays := none,
    isActive := true, createdAt := env0.now, updatedAt := env0.now }

/-- C10: creating a school stores an uppercase-stable code (the sanitized
uppercase of the submitted code), and a GET by any non-empty string that
uppercases to that code — in particular any case variant of it — returns
exactly the created school: the handler uppercases the path parameter
before the equality lookup, and the create-time uniqueness check guarantees
no earlier row shares the code. -/
theorem C10_code_lookup_roundtrip (env : Env) (sdb : List SchoolRow) (b : CreateSchoolReq)
    (db2 : List SchoolRow) (row2 : SchoolRow)
    (hok : createSchool env sdb b = Res.ok 201 (db2, row2)) :
    toUpperJS row2.code = row2.code ∧
    ∀ v : String, v ≠ "" → toUpperJS v = toUpperJS row2.code →
      getSchoolByCode db2 v = Res.ok 200 row2 := by
  obtain ⟨herr, hdb, hcode, hlat, hlng, hemail⟩ := createSchool_ok hok
  have hstable : toUpperJS row2.code = row2.code := by
    rw [hcode]
    exact toUpperJS_code_stable _
  refine ⟨hstable, ?_⟩
  intro v hv hup
  have hup2 : toUpperJS v = row2.code := by rw [hup, hstable]
  simp only [createSchoolErr] at herr
  rw [firstSome_eq_none] at herr
  have hdup := herr
    (chkIf (sdb.find? (fun r =>
      r.code = sanitizeInput (toUpperJS (b.code.getD "")))).isSome 409
      "School code already exists") (by simp)
  have hfind : sdb.find? (fun r =>
      r.code = sanitizeInput (toUpperJS (b.code.getD ""))) = none := by
    have h2 := chkIf_none hdup
    cases hf : sdb.find? (fun r =>
        r.code = sanitizeInput (toUpperJS (b.code.getD ""))) with
    | none => rfl
    | some r => rw [hf] at h2; simp at h2
  have hnone : ∀ x ∈ sdb, (fun r => decide (r.code = toUpperJS v)) x = false := by
    intro x hx
    have h3 := List.find?_eq_none.mp hfind x hx
    simp only [decide_eq_true_eq] at h3
    simp only [decide_eq_false_iff_not]
    rw [hup2, hcode]
    exact h3
  subst hdb
  unfold getSchoolByCode
  rw [if_neg hv]
  have hfr : (sdb ++ [row2]).find? (fun r => r.code = toUpperJS v) = some row2 := by
    rw [find?_append_right _ sdb [row2] hnone]
    exact List.find?_cons_of_pos _ (by simp [hup2.symm])
  rw [hfr]

/-- C10 witness: create `DPS_001` (submitted lowercased as `dps_001`), then
GET `/school/get/dps_001` — a case variant of the stored code — returns the
created row. -/
theorem C10_witness :
    toUpperJS (schoolRow10.code) = schoolRow10.code ∧
    ∀ v : String, v ≠ "" → toUpperJS v = toUpperJS schoolRow10.code →
      getSchoolByCode [schoolRow10] v = Res.ok 200 schoolRow10 :=
  C10_code_lookup_roundtrip env0 [] schoolBody10 [schoolRow10] schoolRow10 (by decide)

/-! ### C9: school coordinate invariant -/

/-- A stored school row holds in-range coordinates. -/
def coordsOk (r : SchoolRow) : Bool := validateCoordinates r.latitude r.longitude

/-- Bounds carried by a passing joint coordinate check on update: every
provided coordinate is in range. -/
theorem schChkCoords_none_bounds {b : UpdateSchoolReq} {old : SchoolRow}
    (h : schChkCoords b old = none) :
    (∀ lat, b.latitude = some lat → ((-90 : Rat) ≤ lat ∧ lat ≤ 90)) ∧
    (∀ lng, b.longitude = some lng → ((-180 : Rat) ≤ lng ∧ lng ≤ 180)) := by
  constructor
  · intro lat hl
    unfold schChkCoords at h
    rw [if_pos (Or.inl (by simp [hl]))] at h
    by_cases hvv : validateCoordinates (b.latitude.getD old.latitude)
        (b.longitude.getD old.longitude) = true
    · rw [hl] at hvv
      simp only [Option.getD_some, validateCoordinates, Bool.and_eq_true,
        decide_eq_true_eq] at hvv
      exact ⟨hvv.1, hvv.2.1⟩
    · simp [hvv] at h
  · intro lng hl
    unfold schChkCoords at h
    rw [if_pos (Or.inr (by simp [hl]))] at h
    by_cases hvv : validateCoordinates (b.latitude.getD old.latitude)
        (b.longitude.getD old.longitude) = true
    · rw [hl] at hvv
      simp only [Option.getD_some, validateCoordinates, Bool.and_eq_true,
        decide_eq_true_eq] at hvv
      exact ⟨hvv.2.2.1, hvv.2.2.2⟩
    · simp [hvv] at h

/-- C9: school creation validates both coordinates and school update
validates any provided coordinate jointly with the stored value of the
other, so both operations preserve the invariant that every stored row's
latitude lies in [-90, 90] and longitude in [-180, 180]. -/
theorem C9_school_coordinates_invariant :
    (∀ (env : Env) (sdb : List SchoolRow) (b : CreateSchoolReq)
       (db2 : List SchoolRow) (row2 : SchoolRow),
       createSchool env sdb b = Res.ok 201 (db2, row2) →
       (∀ r ∈ sdb, coordsOk r = true) → ∀ r ∈ db2, coordsOk r = true) ∧
    (∀ (env : Env) (sdb : List SchoolRow) (id : Nat) (b : UpdateSchoolReq)
       (db2 : List SchoolRow) (row2 : SchoolRow),
       updateSchool env sdb id b = Res.ok 200 (db2, row2) →
       (∀ r ∈ sdb, coordsOk r = true) → ∀ r ∈ db2, coordsOk r = true) := by
  constructor
  · intro env sdb b db2 row2 hok hinv r hr
    obtain ⟨herr, hdb, hcode, hlat, hlng, hemail⟩ := createSchool_ok hok
    subst hdb
    rcases List.mem_append.mp hr with hr | hr
    · exact hinv r hr
    · have hrr : r = row2 := by simpa using hr
      subst hrr
      simp only [createSchoolErr] at herr
      rw [firstSome_eq_none] at herr
      have hc := herr
        (chkIf (¬ validateCoordinates (b.latitude.getD 0) (b.longitude.getD 0)) 400
          "Please provide valid latitude (-90 to 90) and longitude (-180 to 180) coordinates")
        (by simp)
      have hval : validateCoordinates (b.latitude.getD 0) (b.longitude.getD 0) = true := by
        have h2 := chkIf_none hc
        simpa using h2
      unfold coordsOk
      rw [hlat, hlng]
      exact hval
  · intro env sdb id b db2 row2 hok hinv r hr
    obtain ⟨old, hfind, herr, hrow, hdb⟩ := updateSchool_ok hok
    subst hdb
    rw [List.mem_map] at hr
    obtain ⟨r0, hr0, heq⟩ := hr
    by_cases hid : r0.id = id
    · rw [if_pos hid] at heq
      subst heq
      have hco : (-90 : Rat) ≤ r0.latitude ∧ r0.latitude ≤ 90 ∧
          (-180 : Rat) ≤ r0.longitude ∧ r0.longitude ≤ 180 := by
        have h4 := hinv r0 hr0
        simpa [coordsOk, validateCoordinates] using h4
      simp only [schoolUpdErr] at herr
      rw [firstSome_eq_none] at herr
      have hcc := herr (schChkCoords b old) (by simp)
      have hbl := (schChkCoords_none_bounds hcc).1
      have hbg := (schChkCoords_none_bounds hcc).2
      have hx : (-90 : Rat) ≤ b.latitude.getD r0.latitude ∧
          b.latitude.getD r0.latitude ≤ 90 := by
        cases hb : b.latitude with
        | none => simpa using ⟨hco.1, hco.2.1⟩
        | some lat => simpa using hbl lat hb
      have hy : (-180 : Rat) ≤ b.longitude.getD r0.longitude ∧
          b.longitude.getD r0.longitude ≤ 180 := by
        cases hb : b.longitude with
        | none => simpa using ⟨hco.2.2.1, hco.2.2.2⟩
        | some lng => simpa using hbg lng hb
      simp only [coordsOk, applySchoolUpdate, schoolUpdData, validateCoordinates]
      simp [hx.1, hx.2, hy.1, hy.2]
    · rw [if_neg hid] at heq
      subst heq
      exact hinv r0 hr0

/-- C9 witness: both conjuncts applied — creating a school at (28, 77) into
an empty table, and updating its latitude to 12 — keep all rows in range. -/
theorem C9_witness :
    (∀ r ∈ [schoolRow10], coordsOk r = true) ∧
    (∀ r ∈ [{ schoolRow10 with latitude := 12, updatedAt := env0.now }], coordsOk r = true) :=
  ⟨C9_school_coordinates_invariant.1 env0 [] schoolBody10 [schoolRow10] schoolRow10
     (by decide) (by intro r hr; simp at hr),
   C9_school_coordinates_invariant.2 env0 [schoolRow10] schoolRow10.id
     { latitude := some 12 }
     [{ schoolRow10 with latitude := 12, updatedAt := env0.now }]
     { schoolRow10 with latitude := 12, updatedAt := env0.now }
     (by decide) (by intro r hr; simp at hr; subst hr; decide)⟩

/-! ### Passing-check computation lemmas -/

theorem reqStr_ne {v name : String} (h : v ≠ "") : reqStr v name = none := by
  simp [reqStr, h]

theorem reqSome_isSome {α : Type} {o : Option α} {name : String} (h : o.isSome = true) :
    reqSome o name = none := by
  cases o with
  | none => simp at h
  | some v => rfl

theorem chkIf_of_false (c : Bool) {k : Nat} {m : String} (h : c = false) :
    chkIf c k m = none := by
  simp [chkIf, h]

theorem chkOpt_passes {α : Type} (o : Option α) (bad : α → Bool) {m : String}
    (h : ∀ v, o = some v → bad v = false) : chkOpt o bad m = none := by
  cases o with
  | none => rfl
  | some v => simp [chkOpt, h v rfl]

theorem chkTruthy_passes {o : Option String} {bad : String → Bool} {m : String}
    (h : ∀ s, o = some s → s ≠ "" → bad s = false) : chkTruthy o bad m = none := by
  cases o with
  | none => rfl
  | some s =>
    by_cases hs : s = ""
    · simp [chkTruthy, hs]
    · simp [chkTruthy, hs, h s rfl hs]

/-! ### C5: capacity validation on vehicle create and update -/

/-- C5: given a create body whose other validations all pass, `createVehicle`
inserts the row exactly when the submitted capacity lies in the type's
range, and returns a 400 with no row written otherwise; and an update body
submitting only a capacity succeeds exactly when the capacity lies in the
stored vehicle type's range. -/
theorem C5_capacity_range (env : Env) (drvDb : List DriverRow) (vdb : List VehicleRow)
    (b : CreateVehicleReq) (cap : Int)
    (hcap : b.capacity = some cap)
    (hdid : b.driverId.isSome = true)
    (hvt : b.vehicleType ≠ "") (hrg : b.registrationNumber ≠ "")
    (hmk : b.make ≠ "") (hmd : b.model ≠ "")
    (hyr : b.year.isSome = true) (hcl : b.color ≠ "")
    (hrcn : b.rcImageUrl ≠ "") (hicn : b.insuranceCertUrl ≠ "")
    (hien : b.insuranceExpiryDate ≠ "")
    (hdrv : (drvDb.find? (fun d => b.driverId.any (fun i => (d.id : Int) = i))).isSome = true)
    (htype : inList b.vehicleType ["auto", "car", "bike", "bus", "van"] = true)
    (hreg : validateRegistrationNumber (sanitizeInput (toUpperJS b.registrationNumber)) = true)
    (hyear : ∀ y, b.year = some y → validateYear env.currentYear y = true)
    (hrc : env.urlOk b.rcImageUrl = true) (hins : env.urlOk b.insuranceCertUrl = true)
    (hdate : validateDateFormat b.insuranceExpiryDate = true)
    (hopt1 : chkTruthy b.pucCertUrl (fun s => ¬ env.urlOk s) "Invalid PUC certificate URL" = none)
    (hopt2 : chkTruthy b.pucExpiryDate (fun s => ¬ validateDateFormat s)
      "PUC expiry date must be in YYYY-MM-DD format" = none)
    (hopt3 : chkTruthy b.permitImageUrl (fun s => ¬ env.urlOk s) "Invalid permit image URL" = none)
    (hopt4 : chkTruthy b.permitExpiryDate (fun s => ¬ validateDateFormat s)
      "Permit expiry date must be in YYYY-MM-DD format" = none)
    (hopt5 : chkTruthy b.vehicleImageUrls (fun s => ¬ env.vehImgsOk s)
      "Invalid vehicle image URLs. Must be a valid JSON array of image URLs" = none)
    (hdup : (vdb.find? (fun v => v.registrationNumber =
      sanitizeInput (toUpperJS b.registrationNumber))).isSome = false) :
    ((validateCapacity cap b.vehicleType = true →
      ∃ row, createVehicle env drvDb vdb b = Res.ok 201 (vdb ++ [row], row) ∧
        row.capacity = cap) ∧
     (validateCapacity cap b.vehicleType = false →
      createVehicle env drvDb vdb b =
        Res.err 400 ("Invalid capacity for vehicle type " ++ b.vehicleType) ∧
      dbAfterP vdb (createVehicle env drvDb vdb b) = vdb)) ∧
    (∀ (idS : String) (idZ : Int) (old : VehicleRow),
      parseIntJS idS = JNum.num idZ →
      vdb.find? (fun r => (r.id : Int) = idZ) = some old →
      ((validateCapacity cap old.vehicleType = true →
        ∃ db2 row2, updateVehicle env drvDb vdb idS { capacity := some cap } =
          Res.ok 200 (db2, row2) ∧ row2.capacity = cap) ∧
       (validateCapacity cap old.vehicleType = false →
        updateVehicle env drvDb vdb idS { capacity := some cap } =
          Res.err 400 ("Invalid capacity for vehicle type " ++ old.vehicleType)))) := by
  have hcapS : b.capacity.isSome = true := by rw [hcap]; rfl
  have hdrvN : (drvDb.find? (fun d => b.driverId.any (fun i => (d.id : Int) = i))).isNone
      = false := by
    cases hfo : drvDb.find? (fun d => b.driverId.any (fun i => (d.id : Int) = i)) with
    | none => rw [hfo] at hdrv; simp at hdrv
    | some d => rfl
  have herr : createVehicleErr env drvDb vdb b =
      chkOpt b.capacity (fun c2 => ¬ validateCapacity c2 b.vehicleType)
        ("Invalid capacity for vehicle type " ++ b.vehicleType) := by
    simp only [createVehicleErr]
    rw [reqSome_isSome hdid, reqStr_ne hvt, reqStr_ne hrg, reqStr_ne hmk, reqStr_ne hmd,
      reqSome_isSome hyr, reqStr_ne hcl, reqSome_isSome hcapS, reqStr_ne hrcn,
      reqStr_ne hicn, reqStr_ne hien, chkIf_of_false _ hdrvN,
      chkIf_of_false (¬ inList b.vehicleType ["auto", "car", "bike", "bus", "van"])
        (by simp [htype]),
      chkIf_of_false (¬ validateRegistrationNumber (sanitizeInput (toUpperJS b.registrationNumber)))
        (by simp [hreg]),
      chkOpt_passes b.year (fun y => ¬ validateYear env.currentYear y)
        (fun y hy => by simp [hyear y hy]),
      chkIf_of_false (¬ env.urlOk b.rcImageUrl) (by simp [hrc]),
      chkIf_of_false (¬ env.urlOk b.insuranceCertUrl) (by simp [hins]),
      chkIf_of_false (¬ validateDateFormat b.insuranceExpiryDate) (by simp [hdate]),
      hopt1, hopt2, hopt3, hopt4, hopt5, chkIf_of_false _ hdup]
    cases hc : chkOpt b.capacity (fun c2 => ¬ validateCapacity c2 b.vehicleType)
        ("Invalid capacity for vehicle type " ++ b.vehicleType) with
    | none => simp [firstSome, hc]
    | some a => simp [firstSome, hc]
  refine ⟨⟨?_, ?_⟩, ?_⟩
  · intro hv
    have herrN : createVehicleErr env drvDb vdb b = none := by
      rw [herr, hcap]
      simp [chkOpt, hv]
    refine ⟨createVehicleRow env vdb b, ?_, ?_⟩
    · unfold createVehicle
      rw [herrN]
    · simp [createVehicleRow, hcap]
  · intro hv
    have herrS : createVehicleErr env drvDb vdb b =
        some (400, "Invalid capacity for vehicle type " ++ b.vehicleType) := by
      rw [herr, hcap]
      simp [chkOpt, hv]
    have hcv : createVehicle env drvDb vdb b =
        Res.err 400 ("Invalid capacity for vehicle type " ++ b.vehicleType) := by
      unfold createVehicle
      rw [herrS]
    exact ⟨hcv, by rw [hcv]; rfl⟩
  · intro idS idZ old hparse hfind
    have herrU : vehicleUpdErr env drvDb vdb old.id old { capacity := some cap } =
        chkOpt (some cap) (fun c2 => ¬ validateCapacity c2 old.vehicleType)
          ("Invalid capacity for vehicle type " ++ old.vehicleType) := by
      cases hcv2 : validateCapacity cap old.vehicleType with
      | false =>
        simp [vehicleUpdErr, vehicleUpdData, effVehicleType, firstSome, chkOpt, chkOptAt,
          chkTruthy, chkDupBy, hcv2]
      | true =>
        simp [vehicleUpdErr, vehicleUpdData, effVehicleType, firstSome, chkOpt, chkOptAt,
          chkTruthy, chkDupBy, hcv2]
    constructor
    · intro hv
      have herrN : vehicleUpdErr env drvDb vdb old.id old { capacity := some cap } = none := by
        rw [herrU]
        simp [chkOpt, hv]
      refine ⟨vdb.map (fun r => if (r.id : Int) = idZ then
          applyVehicleUpdate r (vehicleUpdData { capacity := some cap } env.now) else r),
        applyVehicleUpdate old (vehicleUpdData { capacity := some cap } env.now), ?_, ?_⟩
      · unfold updateVehicle
        rw [hparse]
        simp only [hfind, herrN]
      · simp [applyVehicleUpdate, vehicleUpdData]
    · intro hv
      have herrS : vehicleUpdErr env drvDb vdb old.id old { capacity := some cap } =
          some (400, "Invalid capacity for vehicle type " ++ old.vehicleType) := by
        rw [herrU]
        simp [chkOpt, hv]
      unfold updateVehicle
      rw [hparse]
      simp only [hfind, herrS]

/-- The status/online delta only ever touches `approvedAt`, `rejectedAt`,
`rejectionReason` and `lastOnlineAt`: every other component of the update
object passes through unchanged. -/
theorem driverDelta_plain (u : DriverUpd) (old : DriverRow) (b : UpdateDriverReq)
    (now : String) :
    (driverDelta u old b now).licenseNumber = u.licenseNumber ∧
    (driverDelta u old b now).licenseExpiryDate = u.licenseExpiryDate ∧
    (driverDelta u old b now).licenseImageUrl = u.licenseImageUrl ∧
    (driverDelta u old b now).aadharNumber = u.aadharNumber ∧
    (driverDelta u old b now).aadharImageUrl = u.aadharImageUrl ∧
    (driverDelta u old b now).panNumber = u.panNumber ∧
    (driverDelta u old b now).panImageUrl = u.panImageUrl ∧
    (driverDelta u old b now).policeVerificationCertUrl = u.policeVerificationCertUrl ∧
    (driverDelta u old b now).emergencyContactName = u.emergencyContactName ∧
    (driverDelta u old b now).emergencyContactPhone = u.emergencyContactPhone ∧
    (driverDelta u old b now).bankAccountNumber = u.bankAccountNumber ∧
    (driverDelta u old b now).bankIfscCode = u.bankIfscCode ∧
    (driverDelta u old b now).bankAccountHolderName = u.bankAccountHolderName ∧
    (driverDelta u old b now).upiId = u.upiId ∧
    (driverDelta u old b now).backgroundCheckStatus = u.backgroundCheckStatus ∧
    (driverDelta u old b now).status = u.status ∧
    (driverDelta u old b now).rating = u.rating ∧
    (driverDelta u old b now).totalRides = u.totalRides ∧
    (driverDelta u old b now).totalEarnings = u.totalEarnings ∧
    (driverDelta u old b now).isOnline = u.isOnline ∧
    (driverDelta u old b now).updatedAt = u.updatedAt := by
  simp only [driverDelta]
  cases hio : b.isOnline with
  | none =>
    by_cases h1 : b.status = some "approved" ∧ old.status ≠ "approved" <;>
      by_cases h2 : b.status = some "rejected" ∧ old.status ≠ "rejected" <;>
        simp [h1, h2]
  | some v =>
    by_cases hv : v ≠ old.isOnline <;>
      by_cases h1 : b.status = some "approved" ∧ old.status ≠ "approved" <;>
        by_cases h2 : b.status = some "rejected" ∧ old.status ≠ "rejected" <;>
          simp [hv, h1, h2]

/-- Without a `status` key in the body, the delta leaves `approvedAt`,
`rejectedAt` and `rejectionReason` as the plain update object has them. -/
theorem driverDelta_noStatus (u : DriverUpd) (old : DriverRow) (b : UpdateDriverReq)
    (now : String) (hs : b.status = none) :
    (driverDelta u old b now).approvedAt = u.approvedAt ∧
    (driverDelta u old b now).rejectedAt = u.rejectedAt ∧
    (driverDelta u old b now).rejectionReason = u.rejectionReason := by
  simp only [driverDelta]
  cases hio : b.isOnline with
  | none => simp [hs]
  | some v => by_cases hv : v ≠ old.isOnline <;> simp [hs, hv]

/-- Without an `isOnline` key in the body, the delta leaves `lastOnlineAt`
as the plain update object has it. -/
theorem driverDelta_noOnline (u : DriverUpd) (old : DriverRow) (b : UpdateDriverReq)
    (now : String) (hio : b.isOnline = none) :
    (driverDelta u old b now).lastOnlineAt = u.lastOnlineAt := by
  simp only [driverDelta]
  by_cases h1 : b.status = some "approved" ∧ old.status ≠ "approved" <;>
    by_cases h2 : b.status = some "rejected" ∧ old.status ≠ "rejected" <;>
      simp [hio, h1, h2]


/-! ### C4: sanitization before validation -/

/-- C4 (counterexample): `createDriver` validates the raw body. A licence
number with a trailing space (21 characters) is rejected with a 400 even
though its sanitized, uppercased form (20 characters) passes validation —
the driver create path, unlike the update path, does not sanitize string
inputs before validating them. -/
theorem C4_counterexample :
    createDriver env0 [user0] [] ({ user_uuid := "u-1", licenseNumber := "DL123456789012345678 ", licenseExpiryDate := "2030-01-01", licenseImageUrl := "https://img.example.com/l.png", aadharNumber := "123456789012", aadharImageUrl := "https://img.example.com/a.png", emergencyContactName := "John Doe", emergencyContactPhone := "9876543210" } : CreateDriverReq) =
      Res.err 400 "Invalid license number format" ∧
    validateLicenseNumber (sanitizeInput (toUpperJS "DL123456789012345678 ")) = true := by
  exact ⟨by decide, by decide⟩

/-- C4 (amended): the driver update path sanitizes before validating and
stores the sanitized values — a provided licence number is stored as
`sanitizeInput(raw.toUpperCase())` and that sanitized value is what passed
validation; likewise a provided Aadhar number is stored as
`sanitizeInput(raw)`. The driver create path does neither: on success the
raw body licence and Aadhar numbers are stored unchanged and it is the raw
values that passed validation. -/
theorem C4_driver_sanitization (env : Env) :
    (∀ (db : List DriverRow) (uuid : String) (b : UpdateDriverReq)
        (db2 : List DriverRow) (row2 : DriverRow),
      updateDriver env db uuid b = Res.ok 200 (db2, row2) →
      (∀ l, b.licenseNumber = some l →
        row2.licenseNumber = sanitizeInput (toUpperJS l) ∧
        validateLicenseNumber (sanitizeInput (toUpperJS l)) = true) ∧
      (∀ a, b.aadharNumber = some a →
        row2.aadharNumber = sanitizeInput a ∧
        validateAadhar (sanitizeInput a) = true)) ∧
    (∀ (udb : List UserRow) (ddb : List DriverRow) (b : CreateDriverReq)
        (db2 : List DriverRow) (row2 : DriverRow),
      createDriver env udb ddb b = Res.ok 201 (db2, row2) →
      row2.licenseNumber = b.licenseNumber ∧ row2.aadharNumber = b.aadharNumber ∧
      validateLicenseNumber b.licenseNumber = true ∧
      validateAadhar b.aadharNumber = true) := by
  constructor
  · intro db uuid b db2 row2 hok
    obtain ⟨old, hfind, herr, hrow, hdb⟩ := updateDriver_ok hok
    subst hrow
    simp only [driverUpdErr] at herr
    refine ⟨fun l hl => ?_, fun a ha => ?_⟩
    · have hu : (driverUpdData b env.now).licenseNumber =
          some (sanitizeInput (toUpperJS l)) := by
        simp [driverUpdData, hl]
      have h1 : chkOpt (driverUpdData b env.now).licenseNumber
          (fun v => ¬ validateLicenseNumber v) "Invalid license number format" = none :=
        firstSome_none_of_mem herr (by simp)
      refine ⟨?_, ?_⟩
      · simp [applyDriverUpdate, driverDelta_plain, hu]
      · have h2 := chkOpt_none h1 _ hu
        simpa using h2
    · have hu : (driverUpdData b env.now).aadharNumber = some (sanitizeInput a) := by
        simp [driverUpdData, ha]
      have h1 : chkOpt (driverUpdData b env.now).aadharNumber
          (fun v => ¬ validateAadhar v) "Aadhar number must be 12 digits" = none :=
        firstSome_none_of_mem herr (by simp)
      refine ⟨?_, ?_⟩
      · simp [applyDriverUpdate, driverDelta_plain, hu]
      · have h2 := chkOpt_none h1 _ hu
        simpa using h2
  · intro udb ddb b db2 row2 hok
    obtain ⟨herr, hdb, hlic, haad, hpan⟩ := createDriver_ok hok
    simp only [createDriverErr] at herr
    have h9 : chkIf (¬ validateLicenseNumber b.licenseNumber) 400
        "Invalid license number format" = none :=
      firstSome_none_of_mem herr (by simp)
    have h12 : chkIf (¬ validateAadhar b.aadharNumber) 400
        "Aadhar number must be 12 digits" = none :=
      firstSome_none_of_mem herr (by simp)
    exact ⟨hlic, haad, by simpa using chkIf_none h9, by simpa using chkIf_none h12⟩

/-- The stored row after a driver update submitting the raw licence
`" dl9876543210 "`: the sanitized uppercase form is what is written. -/
def driver0lic : DriverRow :=
  { driver0 with licenseNumber := "DL9876543210", updatedAt := env0.now }

/-- The row inserted by `createDriver` for a raw (lowercase) licence
number: stored exactly as submitted, unsanitized. -/
def driverRaw : DriverRow :=
  { id := 1, user_uuid := "u-1", licenseNumber := "dl1234567890",
    licenseExpiryDate := "2030-01-01", licenseImageUrl := "https://img.example.com/l.png",
    aadharNumber := "123456789012", aadharImageUrl := "https://img.example.com/a.png",
    panNumber := none, panImageUrl := none, policeVerificationCertUrl := none,
    backgroundCheckStatus := "pending", emergencyContactName := "John Doe",
    emergencyContactPhone := "9876543210", bankAccountNumber := none,
    bankIfscCode := none, bankAccountHolderName := none, upiId := none,
    status := "pending", approvedAt := none, rejectedAt := none,
    rejectionReason := none, rating := 0, totalRides := 0, totalEarnings := 0,
    isOnline := false, lastOnlineAt := none, createdAt := env0.now, updatedAt := env0.now }

/-- C4 witness: updating the sample driver with raw licence
`" dl9876543210 "` stores the sanitized uppercase `"DL9876543210"` (which
validated), while creating a driver with raw lowercase `"dl1234567890"`
stores the raw value unchanged (which validated raw). -/
theorem C4_witness :
    (driver0lic.licenseNumber = sanitizeInput (toUpperJS " dl9876543210 ") ∧
     validateLicenseNumber (sanitizeInput (toUpperJS " dl9876543210 ")) = true) ∧
    (driverRaw.licenseNumber = "dl1234567890" ∧
     validateLicenseNumber "dl1234567890" = true) := by
  refine ⟨?_, ?_⟩
  · exact ((C4_driver_sanitization env0).1 [driver0] "u-1" ({ licenseNumber := some " dl9876543210 " } : UpdateDriverReq) [driver0lic] driver0lic (by decide)).1 " dl9876543210 " rfl
  · have h := (C4_driver_sanitization env0).2 [user0] [] ({ user_uuid := "u-1", licenseNumber := "dl1234567890", licenseExpiryDate := "2030-01-01", licenseImageUrl := "https://img.example.com/l.png", aadharNumber := "123456789012", aadharImageUrl := "https://img.example.com/a.png", emergencyContactName := "John Doe", emergencyContactPhone := "9876543210" } : CreateDriverReq) [driverRaw] driverRaw (by decide)
    exact ⟨h.1, h.2.2.1⟩

/-! ### C8: which fields a partial update writes -/

/-- C8 (counterexample): updating the pending driver with the body
`{status: "approved"}` — whose only key is `status` — succeeds, yet the
stored `approvedAt` changes from `null` to the current time: a field whose
key is absent from the body (indeed not a body field at all) is written,
so "only the fields explicitly present in the request body are written
(plus updatedAt)" is false at this input. -/
theorem C8_counterexample :
    updateDriver env0 [driver0] "u-1" ({ status := some "approved" } : UpdateDriverReq) =
      Res.ok 200 ([driver0approved], driver0approved) ∧
    driver0approved.approvedAt ≠ driver0.approvedAt := by
  exact ⟨by decide, by decide⟩

/-- C8 (amended): on every successful partial update, each stored field
whose key is absent from the body keeps its prior value and `updatedAt` is
refreshed to the controller's current time — except that the driver
handler additionally writes `approvedAt`/`rejectedAt`/`rejectionReason` on
a `status` transition and `lastOnlineAt` on an `isOnline` flip; the frame
for those four fields therefore additionally requires the `status`
(resp. `isOnline`) key to be absent. Identifier and creation-time fields
are never rewritten. -/
theorem C8_partial_update_frame (env : Env) :
    (∀ (db : List UserRow) (uuid : String) (b : UpdateUserReq) (db2 : List UserRow)
        (row2 old : UserRow),
      updateUser env db uuid b = Res.ok 200 (db2, row2) →
      db.find? (fun r => r.uuid = uuid) = some old →
      (b.email = none → row2.email = old.email) ∧
      (b.phoneNumber = none → row2.phoneNumber = old.phoneNumber) ∧
      (b.firstName = none → row2.firstName = old.firstName) ∧
      (b.lastName = none → row2.lastName = old.lastName) ∧
      (b.profileImage = none → row2.profileImage = old.profileImage) ∧
      (b.dateOfBirth = none → row2.dateOfBirth = old.dateOfBirth) ∧
      (b.gender = none → row2.gender = old.gender) ∧
      (b.userType = none → row2.userType = old.userType) ∧
      (b.isActive = none → row2.isActive = old.isActive) ∧
      (b.isVerified = none → row2.isVerified = old.isVerified) ∧
      row2.id = old.id ∧ row2.uuid = old.uuid ∧ row2.createdAt = old.createdAt ∧
      row2.updatedAt = env.now) ∧
    (∀ (db : List DriverRow) (uuid : String) (b : UpdateDriverReq) (db2 : List DriverRow)
        (row2 old : DriverRow),
      updateDriver env db uuid b = Res.ok 200 (db2, row2) →
      db.find? (fun r => r.user_uuid = uuid) = some old →
      (b.licenseNumber = none → row2.licenseNumber = old.licenseNumber) ∧
      (b.licenseExpiryDate = none → row2.licenseExpiryDate = old.licenseExpiryDate) ∧
      (b.licenseImageUrl = none → row2.licenseImageUrl = old.licenseImageUrl) ∧
      (b.aadharNumber = none → row2.aadharNumber = old.aadharNumber) ∧
      (b.aadharImageUrl = none → row2.aadharImageUrl = old.aadharImageUrl) ∧
      (b.panNumber = none → row2.panNumber = old.panNumber) ∧
      (b.panImageUrl = none → row2.panImageUrl = old.panImageUrl) ∧
      (b.policeVerificationCertUrl = none →
        row2.policeVerificationCertUrl = old.policeVerificationCertUrl) ∧
      (b.emergencyContactName = none →
        row2.emergencyContactName = old.emergencyContactName) ∧
      (b.emergencyContactPhone = none →
        row2.emergencyContactPhone = old.emergencyContactPhone) ∧
      (b.bankAccountNumber = none → row2.bankAccountNumber = old.bankAccountNumber) ∧
      (b.bankIfscCode = none → row2.bankIfscCode = old.bankIfscCode) ∧
      (b.bankAccountHolderName = none →
        row2.bankAccountHolderName = old.bankAccountHolderName) ∧
      (b.upiId = none → row2.upiId = old.upiId) ∧
      (b.backgroundCheckStatus = none →
        row2.backgroundCheckStatus = old.backgroundCheckStatus) ∧
      (b.rating = none → row2.rating = old.rating) ∧
      (b.totalRides = none → row2.totalRides = old.totalRides) ∧
      (b.totalEarnings = none → row2.totalEarnings = old.totalEarnings) ∧
      (b.status = none → row2.status = old.status ∧ row2.approvedAt = old.approvedAt ∧
        row2.rejectedAt = old.rejectedAt) ∧
      (b.status = none → b.rejectionReason = none →
        row2.rejectionReason = old.rejectionReason) ∧
      (b.isOnline = none → row2.isOnline = old.isOnline ∧
        row2.lastOnlineAt = old.lastOnlineAt) ∧
      row2.id = old.id ∧ row2.user_uuid = old.user_uuid ∧
      row2.createdAt = old.createdAt ∧ row2.updatedAt = env.now) ∧
    (∀ (drvDb : List DriverRow) (vdb : List VehicleRow) (idS : String)
        (b : UpdateVehicleReq) (db2 : List VehicleRow) (row2 : VehicleRow) (idZ : Int)
        (old : VehicleRow),
      updateVehicle env drvDb vdb idS b = Res.ok 200 (db2, row2) →
      parseIntJS idS = JNum.num idZ →
      vdb.find? (fun r => (r.id : Int) = idZ) = some old →
      (b.driverId = none → row2.driverId = old.driverId) ∧
      (b.vehicleType = none → row2.vehicleType = old.vehicleType) ∧
      (b.registrationNumber = none → row2.registrationNumber = old.registrationNumber) ∧
      (b.make = none → row2.make = old.make) ∧
      (b.model = none → row2.model = old.model) ∧
      (b.year = none → row2.year = old.year) ∧
      (b.color = none → row2.color = old.color) ∧
      (b.capacity = none → row2.capacity = old.capacity) ∧
      (b.rcImageUrl = none → row2.rcImageUrl = old.rcImageUrl) ∧
      (b.insuranceCertUrl = none → row2.insuranceCertUrl = old.insuranceCertUrl) ∧
      (b.insuranceExpiryDate = none →
        row2.insuranceExpiryDate = old.insuranceExpiryDate) ∧
      (b.pucCertUrl = none → row2.pucCertUrl = old.pucCertUrl) ∧
      (b.pucExpiryDate = none → row2.pucExpiryDate = old.pucExpiryDate) ∧
      (b.permitImageUrl = none → row2.permitImageUrl = old.permitImageUrl) ∧
      (b.permitExpiryDate = none → row2.permitExpiryDate = old.permitExpiryDate) ∧
      (b.vehicleImageUrls = none → row2.vehicleImageUrls = old.vehicleImageUrls) ∧
      (b.isActive = none → row2.isActive = old.isActive) ∧
      (b.verificationStatus = none → row2.verificationStatus = old.verificationStatus) ∧
      row2.id = old.id ∧ row2.createdAt = old.createdAt ∧ row2.updatedAt = env.now) ∧
    (∀ (sdb : List SchoolRow) (id : Nat) (b : UpdateSchoolReq) (db2 : List SchoolRow)
        (row2 old : SchoolRow),
      updateSchool env sdb id b = Res.ok 200 (db2, row2) →
      sdb.find? (fun r => r.id = id) = some old →
      (b.name = none → row2.name = old.name) ∧
      (b.code = none → row2.code = old.code) ∧
      (b.address = none → row2.address = old.address) ∧
      (b.latitude = none → row2.latitude = old.latitude) ∧
      (b.longitude = none → row2.longitude = old.longitude) ∧
      (b.city = none → row2.city = old.city) ∧
      (b.state = none → row2.state = old.state) ∧
      (b.pincode = none → row2.pincode = old.pincode) ∧
      (b.phone = none → row2.phone = old.phone) ∧
      (b.email = none → row2.email = old.email) ∧
      (b.principalName = none → row2.principalName = old.principalName) ∧
      (b.schoolType = none → row2.schoolType = old.schoolType) ∧
      (b.boardType = none → row2.boardType = old.boardType) ∧
      (b.startTime = none → row2.startTime = old.startTime) ∧
      (b.endTime = none → row2.endTime = old.endTime) ∧
      (b.workingDays = none → row2.workingDays = old.workingDays) ∧
      (b.holidays = none → row2.holidays = old.holidays) ∧
      (b.isActive = none → row2.isActive = old.isActive) ∧
      row2.id = old.id ∧ row2.createdAt = old.createdAt ∧ row2.updatedAt = env.now) := by
  refine ⟨?_, ?_, ?_, ?_⟩
  · intro db uuid b db2 row2 old hok hfind
    obtain ⟨old2, hfind2, herr, hrow, hdb⟩ := updateUser_ok hok
    rw [hfind] at hfind2
    injection hfind2 with hsame
    subst hsame
    subst hrow
    repeat' apply And.intro
    all_goals intros
    all_goals simp [applyUserUpdate, userUpdData, *]
  · intro db uuid b db2 row2 old hok hfind
    obtain ⟨old2, hfind2, herr, hrow, hdb⟩ := updateDriver_ok hok
    rw [hfind] at hfind2
    injection hfind2 with hsame
    subst hsame
    subst hrow
    repeat' apply And.intro
    all_goals intros
    all_goals simp [applyDriverUpdate, driverUpdData, driverDelta_plain,
      driverDelta_noStatus, driverDelta_noOnline, *]
  · intro drvDb vdb idS b db2 row2 idZ old hok hparse hfind
    obtain ⟨idZ2, old2, hparse2, hfind2, herr, hrow, hdb⟩ := updateVehicle_ok hok
    rw [hparse] at hparse2
    injection hparse2 with hz
    subst hz
    rw [hfind] at hfind2
    injection hfind2 with hsame
    subst hsame
    subst hrow
    repeat' apply And.intro
    all_goals intros
    all_goals simp [applyVehicleUpdate, vehicleUpdData, setOpt, *]
  · intro sdb id b db2 row2 old hok hfind
    obtain ⟨old2, hfind2, herr, hrow, hdb⟩ := updateSchool_ok hok
    rw [hfind] at hfind2
    injection hfind2 with hsame
    subst hsame
    subst hrow
    repeat' apply And.intro
    all_goals intros
    all_goals simp [applySchoolUpdate, schoolUpdData, setOpt, *]

/-- The stored row after updating only `firstName` on the sample user. -/
def user0maya : UserRow := { user0 with firstName := "Maya", updatedAt := env0.now }

/-- C8 witness: updating only `firstName` on the sample user leaves email,
phone and the verification flag at their stored values and refreshes
`updatedAt` to the current time. -/
theorem C8_witness :
    user0maya.email = user0.email ∧ user0maya.phoneNumber = user0.phoneNumber ∧
    user0maya.isVerified = user0.isVerified ∧ user0maya.updatedAt = env0.now := by
  have h := (C8_partial_update_frame env0).1 [user0] "u-1"
    ({ firstName := some "Maya" } : UpdateUserReq) [user0maya] user0maya user0
    (by decide) (by decide)
  obtain ⟨he, hp, -, -, -, -, -, -, -, hv, -, -, -, hu⟩ := h
  exact ⟨he rfl, hp rfl, hv rfl, hu⟩

/-! ### C7: uniqueness pre-checks exclude the row being updated -/

theorem chkDupBy_passes {ρ : Type} (o : Option String) (db : List ρ)
    (taken : ρ → String → Bool) {k : Nat} {m : String}
    (h : ∀ v, o = some v → db.find? (fun r => taken r v) = none) :
    chkDupBy o db taken k m = none := by
  cases o with
  | none => rfl
  | some v => simp [chkDupBy, h v rfl]

theorem chkNullable_passes (o : Option (Option String)) (bad : String → Bool) {m : String}
    (h : ∀ s, o = some (some s) → s ≠ "" → bad s = false) :
    chkNullable o bad m = none := by
  match o with
  | none => rfl
  | some none => rfl
  | some (some s) =>
    by_cases hs : s = ""
    · simp [chkNullable, hs]
    · simp [chkNullable, hs, h s rfl hs]

theorem drvChkDup_passes (db : List DriverRow) (uuid : String) (u : DriverUpd)
    (h : db.find? (drvDupPred uuid u.licenseNumber u.aadharNumber u.panNumber) = none) :
    drvChkDup db uuid u = none := by
  simp [drvChkDup, h]

/-- C7: on every partial update, the duplicate query for a unique field
excludes the row being updated (users/drivers by uuid, vehicles/schools by
id), so submitting a value that sanitizes to the target row's own current
value raises no 409 and — when that stored value validates and no other
row holds it — the update succeeds with 200. One conjunct per entity:
user email+phone, driver licence+Aadhar+PAN, vehicle registration number,
school code. -/
theorem C7_update_self_unique (env : Env) :
    (∀ (db : List UserRow) (uuid : String) (old : UserRow) (e p : String),
      uuid ≠ "" →
      db.find? (fun r => r.uuid = uuid) = some old →
      sanitizeInput (toLowerJS e) = old.email →
      sanitizeInput p = old.phoneNumber →
      validateEmail old.email = true →
      validatePhone old.phoneNumber = true →
      (∀ r ∈ db, r.email = old.email → r.uuid = uuid) →
      (∀ r ∈ db, r.phoneNumber = old.phoneNumber → r.uuid = uuid) →
      ∃ db2 row2, updateUser env db uuid { email := some e, phoneNumber := some p } =
        Res.ok 200 (db2, row2)) ∧
    (∀ (db : List DriverRow) (uuid : String) (old : DriverRow) (l a pn : String),
      uuid ≠ "" →
      db.find? (fun r => r.user_uuid = uuid) = some old →
      sanitizeInput (toUpperJS l) = old.licenseNumber →
      sanitizeInput a = old.aadharNumber →
      pn ≠ "" →
      old.panNumber = some (sanitizeInput (toUpperJS pn)) →
      validateLicenseNumber old.licenseNumber = true →
      validateAadhar old.aadharNumber = true →
      validatePAN (sanitizeInput (toUpperJS pn)) = true →
      (∀ r ∈ db, r.user_uuid ≠ uuid →
        r.licenseNumber ≠ old.licenseNumber ∧ r.aadharNumber ≠ old.aadharNumber ∧
        r.panNumber ≠ old.panNumber) →
      ∃ db2 row2, updateDriver env db uuid
          { licenseNumber := some l, aadharNumber := some a, panNumber := some (some pn) } =
        Res.ok 200 (db2, row2)) ∧
    (∀ (drvDb : List DriverRow) (vdb : List VehicleRow) (idS : String) (idZ : Int)
        (old : VehicleRow) (rg : String),
      parseIntJS idS = JNum.num idZ →
      vdb.find? (fun r => (r.id : Int) = idZ) = some old →
      sanitizeInput (toUpperJS rg) = old.registrationNumber →
      validateRegistrationNumber old.registrationNumber = true →
      (∀ r ∈ vdb, r.registrationNumber = old.registrationNumber → r.id = old.id) →
      ∃ db2 row2, updateVehicle env drvDb vdb idS { registrationNumber := some rg } =
        Res.ok 200 (db2, row2)) ∧
    (∀ (sdb : List SchoolRow) (id : Nat) (old : SchoolRow) (c : String),
      sdb.find? (fun r => r.id = id) = some old →
      sanitizeInput (toUpperJS c) = old.code →
      validateSchoolCode old.code = true →
      (∀ r ∈ sdb, r.code = old.code → r.id = id) →
      ∃ db2 row2, updateSchool env sdb id { code := some c } = Res.ok 200 (db2, row2)) := by
  refine ⟨?_, ?_, ?_, ?_⟩
  · intro db uuid old e p huuid hfind he hp hvE hvP hdE hdP
    have herr : userUpdErr env db uuid
        ({ email := some e, phoneNumber := some p } : UpdateUserReq) = none := by
      simp only [userUpdErr, userUpdData, Option.map_some', Option.map_none']
      rw [he, hp]
      rw [chkOpt_passes (some old.email) (fun v => ¬ validateEmail v)
            (fun v hv => by injection hv with h2; subst h2; simp [hvE]),
          chkDupBy_passes (some old.email) db (fun r v => r.email = v ∧ r.uuid ≠ uuid)
            (fun v hv => by
              injection hv with h2; subst h2
              rw [List.find?_eq_none]
              intro r hr
              simp only [decide_eq_true_eq, ne_eq, not_and, not_not]
              exact hdE r hr),
          chkOpt_passes (some old.phoneNumber) (fun v => ¬ validatePhone v)
            (fun v hv => by injection hv with h2; subst h2; simp [hvP]),
          chkDupBy_passes (some old.phoneNumber) db
            (fun r v => r.phoneNumber = v ∧ r.uuid ≠ uuid)
            (fun v hv => by
              injection hv with h2; subst h2
              rw [List.find?_eq_none]
              intro r hr
              simp only [decide_eq_true_eq, ne_eq, not_and, not_not]
              exact hdP r hr)]
      rfl
    refine ⟨db.map (fun r => if r.uuid = uuid then applyUserUpdate r
        (userUpdData { email := some e, phoneNumber := some p } env.now) else r),
      applyUserUpdate old (userUpdData { email := some e, phoneNumber := some p } env.now), ?_⟩
    simp only [updateUser, hfind, herr]
    simp [huuid]
  · intro db uuid old l a pn huuid hfind hl ha hpnne hpanold hvL hvA hvPan hOther
    have h3s : ∀ r ∈ db, r.user_uuid ≠ uuid →
        r.panNumber ≠ some (sanitizeInput (toUpperJS pn)) := by
      intro r hr hru
      have := (hOther r hr hru).2.2
      rw [hpanold] at this
      exact this
    have hfd : db.find? (drvDupPred uuid (some old.licenseNumber) (some old.aadharNumber)
        (some (some (sanitizeInput (toUpperJS pn))))) = none := by
      rw [List.find?_eq_none]
      intro r hr
      by_cases hru : r.user_uuid = uuid
      · simp [drvDupPred, hru]
      · have h1 := (hOther r hr hru).1
        have h2 := (hOther r hr hru).2.1
        have h3 := h3s r hr hru
        simp [drvDupPred, hru, h1, h2, h3]
    have herr : driverUpdErr env db uuid
        ({ licenseNumber := some l, aadharNumber := some a,
           panNumber := some (some pn) } : UpdateDriverReq) = none := by
      simp only [driverUpdErr, driverUpdData, Option.map_some', Option.map_none']
      rw [hl, ha]
      rw [chkOpt_passes (some old.licenseNumber) (fun v => ¬ validateLicenseNumber v)
            (fun v hv => by injection hv with h2; subst h2; simp [hvL]),
          chkOpt_passes (some old.aadharNumber) (fun v => ¬ validateAadhar v)
            (fun v hv => by injection hv with h2; subst h2; simp [hvA]),
          chkNullable_passes (some (some pn))
            (fun s => ¬ validatePAN (sanitizeInput (toUpperJS s)))
            (fun s hs hne => by
              injection hs with h2; injection h2 with h3; subst h3; simp [hvPan])]
      simp [firstSome, drvChkDup, sanTruthyUpper, hpnne, hfd]
    refine ⟨db.map (fun r => if r.user_uuid = uuid then applyDriverUpdate r (driverDelta (driverUpdData { licenseNumber := some l, aadharNumber := some a, panNumber := some (some pn) } env.now) old { licenseNumber := some l, aadharNumber := some a, panNumber := some (some pn) } env.now) else r),
      applyDriverUpdate old (driverDelta (driverUpdData { licenseNumber := some l, aadharNumber := some a, panNumber := some (some pn) } env.now) old { licenseNumber := some l, aadharNumber := some a, panNumber := some (some pn) } env.now), ?_⟩
    simp only [updateDriver, hfind, herr]
    simp [huuid]
  · intro drvDb vdb idS idZ old rg hparse hfind hrg hvR hdup
    have herr : vehicleUpdErr env drvDb vdb old.id old
        ({ registrationNumber := some rg } : UpdateVehicleReq) = none := by
      simp only [vehicleUpdErr, vehicleUpdData, Option.map_some', Option.map_none']
      rw [hrg]
      rw [chkOpt_passes (some old.registrationNumber)
            (fun v => ¬ validateRegistrationNumber v)
            (fun v hv => by injection hv with h2; subst h2; simp [hvR]),
          chkDupBy_passes (some old.registrationNumber) vdb
            (fun r v => r.registrationNumber = v ∧ r.id ≠ old.id)
            (fun v hv => by
              injection hv with h2; subst h2
              rw [List.find?_eq_none]
              intro r hr
              simp only [decide_eq_true_eq, ne_eq, not_and, not_not]
              exact hdup r hr)]
      rfl
    refine ⟨vdb.map (fun r => if (r.id : Int) = idZ then applyVehicleUpdate r
        (vehicleUpdData { registrationNumber := some rg } env.now) else r),
      applyVehicleUpdate old (vehicleUpdData { registrationNumber := some rg } env.now), ?_⟩
    simp only [updateVehicle, hparse, hfind, herr]
  · intro sdb id old c hfind hc hvC hdup
    have herr : schoolUpdErr sdb id old ({ code := some c } : UpdateSchoolReq) = none := by
      simp only [schoolUpdErr, schoolUpdData, Option.map_some', Option.map_none']
      rw [hc]
      rw [chkOpt_passes (some old.code) (fun v => ¬ validateSchoolCode v)
            (fun v hv => by injection hv with h2; subst h2; simp [hvC]),
          chkDupBy_passes (some old.code) sdb (fun r v => r.code = v ∧ r.id ≠ id)
            (fun v hv => by
              injection hv with h2; subst h2
              rw [List.find?_eq_none]
              intro r hr
              simp only [decide_eq_true_eq, ne_eq, not_and, not_not]
              exact hdup r hr)]
      rfl
    refine ⟨sdb.map (fun r => if r.id = id then applySchoolUpdate r
        (schoolUpdData { code := some c } env.now) else r),
      applySchoolUpdate old (schoolUpdData { code := some c } env.now), ?_⟩
    simp only [updateSchool, hfind, herr]

/-- C7 witness: each entity's self-equal unique-field update on the sample
one-row tables returns 200 — in particular no 409 duplicate conflict. -/
theorem C7_witness :
    (∃ db2 row2, updateUser env0 [user0] "u-1"
        { email := some "A@B.Com", phoneNumber := some " 9876543210" } =
      Res.ok 200 (db2, row2)) ∧
    (∃ db2 row2, updateDriver env0 [driver0] "u-1" { licenseNumber := some "dl1234567890", aadharNumber := some " 123456789012", panNumber := some (some "abcde1234f") } = Res.ok 200 (db2, row2)) ∧
    (∃ db2 row2, updateVehicle env0 [driver0] [vehicle0] "1"
        { registrationNumber := some "ka01ab1234" } = Res.ok 200 (db2, row2)) ∧
    (∃ db2 row2, updateSchool env0 [school0] 1 { code := some "dps_001" } =
      Res.ok 200 (db2, row2)) := by
  refine ⟨?_, ?_, ?_, ?_⟩
  · exact (C7_update_self_unique env0).1 [user0] "u-1" user0 "A@B.Com" " 9876543210"
      (by decide) (by decide) (by decide) (by decide) (by decide) (by decide)
      (by decide) (by decide)
  · exact (C7_update_self_unique env0).2.1 [driver0] "u-1" driver0 "dl1234567890"
      " 123456789012" "abcde1234f" (by decide) (by decide) (by decide) (by decide)
      (by decide) (by decide) (by decide) (by decide) (by decide) (by decide)
  · exact (C7_update_self_unique env0).2.2.1 [driver0] [vehicle0] "1" 1 vehicle0
      "ka01ab1234" (by decide) (by decide) (by decide) (by decide) (by decide)
  · exact (C7_update_self_unique env0).2.2.2 [school0] 1 school0 "dps_001"
      (by decide) (by decide) (by decide) (by decide)

/-- A create-vehicle body for a car with the given capacity, all other
fields valid. -/
def carBody (cap : Int) : CreateVehicleReq :=
  { driverId := some 1, vehicleType := "car", registrationNumber := "KA01AB1234",
    make := "Toyota", model := "Innova", year := some 2020, color := "White",
    capacity := some cap, rcImageUrl := "https://img.example.com/rc.png",
    insuranceCertUrl := "https://img.example.com/ins.png",
    insuranceExpiryDate := "2026-01-01" }

/-- C5 witness: the boundary scenarios for `vehicleType=car` — capacity 3
gives 400 with nothing written, capacities 4 and 8 give 201, capacity 9
gives 400 with nothing written. -/
theorem C5_witness :
    (∃ row, createVehicle env0 [driver0] [] (carBody 4) = Res.ok 201 ([] ++ [row], row) ∧
      row.capacity = 4) ∧
    (createVehicle env0 [driver0] [] (carBody 3) =
      Res.err 400 ("Invalid capacity for vehicle type " ++ (carBody 3).vehicleType) ∧
     dbAfterP [] (createVehicle env0 [driver0] [] (carBody 3)) = []) ∧
    (∃ row, createVehicle env0 [driver0] [] (carBody 8) = Res.ok 201 ([] ++ [row], row) ∧
      row.capacity = 8) ∧
    (createVehicle env0 [driver0] [] (carBody 9) =
      Res.err 400 ("Invalid capacity for vehicle type " ++ (carBody 9).vehicleType) ∧
     dbAfterP [] (createVehicle env0 [driver0] [] (carBody 9)) = []) := by
  refine ⟨?_, ?_, ?_, ?_⟩
  · exact (C5_capacity_range env0 [driver0] [] (carBody 4) 4 rfl rfl (by decide) (by decide)
      (by decide) (by decide) rfl (by decide) (by decide) (by decide) (by decide)
      (by decide) (by decide) (by decide)
      (by intro y hy; simp [carBody] at hy; subst hy; decide)
      rfl rfl (by decide) rfl rfl rfl rfl rfl rfl).1.1 (by decide)
  · exact (C5_capacity_range env0 [driver0] [] (carBody 3) 3 rfl rfl (by decide) (by decide)
      (by decide) (by decide) rfl (by decide) (by decide) (by decide) (by decide)
      (by decide) (by decide) (by decide)
      (by intro y hy; simp [carBody] at hy; subst hy; decide)
      rfl rfl (by decide) rfl rfl rfl rfl rfl rfl).1.2 (by decide)
  · exact (C5_capacity_range env0 [driver0] [] (carBody 8) 8 rfl rfl (by decide) (by decide)
      (by decide) (by decide) rfl (by decide) (by decide) (by decide) (by decide)
      (by decide) (by decide) (by decide)
      (by intro y hy; simp [carBody] at hy; subst hy; decide)
      rfl rfl (by decide) rfl rfl rfl rfl rfl rfl).1.1 (by decide)
  · exact (C5_capacity_range env0 [driver0] [] (carBody 9) 9 rfl rfl (by decide) (by decide)
      (by decide) (by decide) rfl (by decide) (by decide) (by decide) (by decide)
      (by decide) (by decide) (by decide)
      (by intro y hy; simp [carBody] at hy; subst hy; decide)
      rfl rfl (by decide) rfl rfl rfl rfl rfl rfl).1.2 (by decide)

end Navigo
